import Mathlib

/-!
# Verification of the redfish-exporter performance collector

Shallow embedding of `src/collectors/performance_collector.py`
(`PerformanceCollector`), the normalization engine that walks the
Redfish resource graph of a target and emits power / temperature /
fan-speed gauge samples.

Modelling conventions:
* JSON documents returned by the external HTTP client
  (`RedfishMetricsCollector.connect_server`) are values of `JVal`;
  numbers are rationals (JSON has no NaN/Inf literals).
* Python dict indexing, `.get`, membership and iteration are modelled by
  `jIndexV`, `jGetD`, `jContains`, `jIter`; the distinct Python exception
  classes (KeyError / TypeError / AttributeError / IndexError) are
  collapsed to the three constructors of `PyErr` — which exception class
  is raised never matters below, only that one is raised.  Indexing a
  list by an integer and substring tests on strings do not occur on any
  path exercised here and are uniformly mapped to `PyErr.typeError`.
* Fallible code runs in `Except PyErr`; an uncaught Python exception is
  an `Except.error` result.  State (the four gauges' sample lists, the
  warning log, and the trace of fetched URLs) is threaded explicitly.
  On an `Except.error` result the state is discarded, mirroring the fact
  that the caller of `collect` receives only the exception.
* `math.nan` sample values are the `SVal.nan` constructor; any other
  value handed to `add_sample` is kept verbatim as `SVal.val`.
* The per-cycle URL slot dictionary `self.col.urls` is modelled as a
  record of four `Option String` fields, `none` standing for an
  absent/falsy slot (the collector populates all four slots each cycle;
  both the `urls['X']` and `urls.get('X')` access styles in the source
  then agree).
-/

/-- A JSON value, as produced by the external `connect_server` client. -/
inductive JVal where
  | null
  | bool (b : Bool)
  | num (q : ℚ)
  | str (s : String)
  | arr (xs : List JVal)
  | obj (fs : List (String × JVal))

/-- The Python exceptions the collector can raise (KeyError carries the
missing key; TypeError and AttributeError carry nothing we need). -/
inductive PyErr where
  | keyError (k : String)
  | typeError
  | attrError
deriving DecidableEq

/-- A value stored in a gauge sample: `math.nan` or a verbatim value. -/
inductive SVal where
  | nan
  | val (v : JVal)

/-- Label mappings (Python dicts keyed by strings). -/
abbrev Labels := List (String × JVal)

/-- First-match association-list lookup — Python dict lookup (real dicts
never hold duplicate keys; all dicts built below keep keys unique). -/
def lookupJ : List (String × JVal) → String → Option JVal
  | [], _ => none
  | p :: rest, k => if p.1 = k then some p.2 else lookupJ rest k

/-- `d[k] = v` on a dict: replace in place if the key exists, else append. -/
def dictSet (d : Labels) (k : String) (v : JVal) : Labels :=
  if d.any (fun p => p.1 = k) then
    d.map (fun p => if p.1 = k then (k, v) else p)
  else d ++ [(k, v)]

/-- `d.update(other)`: successively set every pair of `other` into `d`. -/
def dictUpdate (d other : Labels) : Labels :=
  other.foldl (fun acc p => dictSet acc p.1 p.2) d

/-- Python truthiness of a JSON value. -/
def jTruthy : JVal → Bool
  | .null => false
  | .bool b => b
  | .num q => q ≠ 0
  | .str s => s ≠ ""
  | .arr xs => !xs.isEmpty
  | .obj fs => !fs.isEmpty

/-- `v is None`. -/
def jIsNull : JVal → Bool
  | .null => true
  | _ => false

/-- `v == s` for a Python string literal `s` (only a string compares equal). -/
def jEqStr (v : JVal) (s : String) : Bool :=
  match v with
  | .str t => t = s
  | _ => false

/-- `d[k]`: dict lookup raising KeyError when absent, TypeError when the
container is not a dict (subscripting a non-dict). -/
def jIndexV : JVal → JVal → Except PyErr JVal
  | .obj fs, .str k =>
      match lookupJ fs k with
      | some v => .ok v
      | none => .error (.keyError k)
  | _, _ => .error .typeError

/-- `d.get(k, default)`: AttributeError when `d` is not a dict. -/
def jGetD : JVal → String → JVal → Except PyErr JVal
  | .obj fs, k, d => .ok ((lookupJ fs k).getD d)
  | _, _, _ => .error .attrError

/-- `k in d`: key membership for dicts, element membership for lists. -/
def jContains : JVal → String → Except PyErr Bool
  | .obj fs, k => .ok (fs.any (fun p => p.1 = k))
  | .arr xs, k => .ok (xs.any (fun v => jEqStr v k))
  | _, _ => .error .typeError

/-- `for x in v`: a list yields its items, a dict its keys. -/
def jIter : JVal → Except PyErr (List JVal)
  | .arr xs => .ok xs
  | .obj fs => .ok (fs.map (fun p => JVal.str p.1))
  | _ => .error .typeError

/-- `math.nan if v is None else v`. -/
def nanOr : JVal → SVal
  | .null => .nan
  | v => .val v

/-- `sum(..)` over the gathered fan values: Python `sum` starting at the
int 0; bools count as 1/0, any non-numeric addend raises TypeError. -/
def jSumAux (acc : ℚ) : List JVal → Except PyErr ℚ
  | [] => .ok acc
  | .num q :: rest => jSumAux (acc + q) rest
  | .bool b :: rest => jSumAux (acc + if b then 1 else 0) rest
  | _ :: _ => .error .typeError

def jSum (l : List JVal) : Except PyErr ℚ := jSumAux 0 l

/-- Decimal-notation part of Python `float(str)`: digits, optional
fraction, optional exponent, optional sign, surrounding whitespace.
(`inf`/`nan` literals and `_` digit separators are not modelled; no
string on any path considered here uses them.) -/
def readDigits : List Char → Nat → Nat → Nat × Nat × List Char
  | c :: rest, acc, n =>
      if c.isDigit then readDigits rest (acc * 10 + (c.toNat - 48)) (n + 1)
      else (acc, n, c :: rest)
  | [], acc, n => (acc, n, [])

def parseMantissa (cs : List Char) : Option (ℚ × List Char) :=
  let (ip, ni, cs1) := readDigits cs 0 0
  match cs1 with
  | '.' :: cs2 =>
      let (fp, nf, cs3) := readDigits cs2 0 0
      if ni + nf = 0 then none
      else some ((ip : ℚ) + (fp : ℚ) / (10 : ℚ) ^ nf, cs3)
  | _ => if ni = 0 then none else some ((ip : ℚ), cs1)

def parseExpPart (cs : List Char) : Option (Int × List Char) :=
  match cs with
  | c :: cs1 =>
      if c = 'e' ∨ c = 'E' then
        match cs1 with
        | '+' :: cs2 =>
            let (e, n, cs3) := readDigits cs2 0 0
            if n = 0 then none else some ((e : Int), cs3)
        | '-' :: cs2 =>
            let (e, n, cs3) := readDigits cs2 0 0
            if n = 0 then none else some ((-(e : Int)), cs3)
        | _ =>
            let (e, n, cs2) := readDigits cs1 0 0
            if n = 0 then none else some ((e : Int), cs2)
      else some (0, cs)
  | [] => some (0, [])

def parseFloat (s : String) : Option ℚ :=
  let cs := (((s.toList.dropWhile Char.isWhitespace).reverse.dropWhile
    Char.isWhitespace).reverse)
  let (sgn, cs') : ℚ × List Char :=
    match cs with
    | '-' :: r => (-1, r)
    | '+' :: r => (1, r)
    | r => (1, r)
  match parseMantissa cs' with
  | none => none
  | some (m, cs1) =>
      match parseExpPart cs1 with
      | none => none
      | some (e, cs2) =>
          if cs2 = [] then some (sgn * m * (10 : ℚ) ^ e) else none

/-- `float(v)` wrapped in `try/except (ValueError, TypeError)`:
numbers pass through, bools become 1/0, strings are parsed,
anything else (None, dict, list) fails the coercion. -/
def pyFloat : JVal → Option ℚ
  | .num q => some q
  | .bool b => some (if b then 1 else 0)
  | .str s => parseFloat s
  | _ => none

/-! ## Collector state -/

/-- The warning log lines the collector can emit (`logging.warning` calls). -/
inductive WarnKind where
  | noPowerUrl            -- "No power url found."
  | noPowerSuppliesUrl    -- "No power supplies url found."
  | noPSUMetrics (name : JVal)  -- "No power supply metrics url found for %s."
  | noFanRPM              -- "No fan RPM data found."
  | noFanPWM              -- "No fan PWM data found."

/-- One warning record; every warning in the source names the target,
host and model of the collector. -/
structure LogRec where
  kind : WarnKind
  target : String
  host : String
  model : String

/-- The per-cycle URL slots (`self.col.urls`); `none` = absent/falsy. -/
structure Urls where
  powerSubsystem : Option String
  power : Option String
  thermalSubsystem : Option String
  thermal : Option String

/-- The `redfish_metrics_collector` collaborator (`self.col`): target
identity, base labels, URL slots, and the HTTP client as a pure map
from URL to fetched JSON document. -/
structure Col where
  target : String
  host : String
  model : String
  labels : Labels
  urls : Urls
  fetch : String → JVal

/-- Observable collector state for one cycle: the four gauges' sample
lists (in `add_sample` order), the warning log, and the trace of URLs
passed to `connect_server` (in call order). -/
structure St where
  power : List (SVal × Labels)
  temperature : List (SVal × Labels)
  fanRPM : List (SVal × Labels)
  fanPWM : List (SVal × Labels)
  log : List LogRec
  fetched : List String

def St.init : St := ⟨[], [], [], [], [], []⟩

def warn (col : Col) (k : WarnKind) (st : St) : St :=
  { st with log := st.log ++ [⟨k, col.target, col.host, col.model⟩] }

def addPower (v : SVal) (l : Labels) (st : St) : St :=
  { st with power := st.power ++ [(v, l)] }

def addTemp (v : SVal) (l : Labels) (st : St) : St :=
  { st with temperature := st.temperature ++ [(v, l)] }

def addFanRPM (v : SVal) (l : Labels) (st : St) : St :=
  { st with fanRPM := st.fanRPM ++ [(v, l)] }

def addFanPWM (v : SVal) (l : Labels) (st : St) : St :=
  { st with fanPWM := st.fanPWM ++ [(v, l)] }

/-- `self.col.connect_server(url)`: record the fetched URL and return the
document.  Handing a non-string to the HTTP client fails inside it. -/
def connectServer (col : Col) (url : JVal) (st : St) : Except PyErr (JVal × St) :=
  match url with
  | .str s => .ok (col.fetch s, { st with fetched := st.fetched ++ [s] })
  | _ => .error .typeError

/-! ## Power reconciliation (`get_power_metrics` and helpers) -/

/-- Body of the `for submetric in power_subsystem[metric]` loop
(lines 79–91): one sample per sub-key of a dict-valued direct field,
labelled `type=<sub-key>`, null → NaN. -/
def emitSubKeys (col : Col) (fs : List (String × JVal)) : List String → St → St
  | [], st => st
  | k :: rest, st =>
      let v := (lookupJ fs k).getD JVal.null
      let cl := dictUpdate [("type", JVal.str k)] col.labels
      emitSubKeys col fs rest (addPower (nanOr v) cl st)

/-- Body of the `for metric in metrics` loop of
`get_power_subsystem_metrics` (lines 74–104): skip an absent field,
expand a dict-valued field per sub-key, otherwise emit one sample
labelled `type=<field>` (null → NaN). -/
def emitDirectField (col : Col) (ps : JVal) (metric : String) (st : St) :
    Except PyErr St := do
  let present ← jContains ps metric
  if !present then
    return st
  else
    let v ← jIndexV ps (.str metric)
    match v with
    | .obj fs => return emitSubKeys col fs (fs.map Prod.fst) st
    | _ =>
        let cl := dictUpdate [("type", JVal.str metric)] col.labels
        return addPower (nanOr v) cl st

def emitDirectFields (col : Col) (ps : JVal) : List String → St → Except PyErr St
  | [], st => .ok st
  | m :: rest, st => do
      emitDirectFields col ps rest (← emitDirectField col ps m st)

/-- The `for field in fields` loop of `get_power_supply_metrics`
(lines 144–145): build the identity labels from `Name` / `Manufacturer`
/ `Model`, defaulting `"unknown"`. -/
def psuFieldLabels (psd : JVal) : List String → Labels → Except PyErr Labels
  | [], acc => .ok acc
  | f :: rest, acc => do
      let v ← jGetD psd f (.str "unknown")
      psuFieldLabels psd rest (dictUpdate acc [(f, v)])

/-- Body of the `for metric in metrics` loop of
`get_power_supply_metrics` (lines 153–166): labels are built before the
presence test; an absent field is skipped; a present field's `Reading`
is emitted (null → NaN). -/
def emitSupplyMetric (psl : Labels) (psm : JVal) (metric : String)
    (st : St) : Except PyErr St := do
  let currentLabels := dictUpdate [("type", JVal.str metric)] psl
  let present ← jContains psm metric
  if !present then
    return st
  else
    let entry ← jIndexV psm (.str metric)
    let reading ← jIndexV entry (.str "Reading")
    return addPower (nanOr reading) currentLabels st

def emitSupplyMetrics (psl : Labels) (psm : JVal) :
    List String → St → Except PyErr St
  | [], st => .ok st
  | m :: rest, st => do
      emitSupplyMetrics psl psm rest (← emitSupplyMetric psl psm m st)

/-- `get_power_supply_metrics` (lines 124–168).  Returns the
`no_psu_metrics` flag: `true` when the member has no `Metrics` pointer
(with a warning naming the supply), and `false` as soon as the metrics
resource was fetched — regardless of whether any of the three fields
was present. -/
def getPowerSupplyMetrics (col : Col) (psRef : JVal) (st0 : St) :
    Except PyErr (Bool × St) := do
  let oid ← jIndexV psRef (.str "@odata.id")
  let (psd, st1) ← connectServer col oid st0
  let hasMetrics ← jContains psd "Metrics"
  if !hasMetrics then
    let nm ← jGetD psd "Name" (.str "unknown")
    return (true, warn col (.noPSUMetrics nm) st1)
  else
    let psl0 ← psuFieldLabels psd ["Name", "Manufacturer", "Model"] []
    let psl := dictUpdate psl0 col.labels
    let mEntry ← jIndexV psd (.str "Metrics")
    let mUrl ← jIndexV mEntry (.str "@odata.id")
    let (psm, st2) ← connectServer col mUrl st1
    let st3 ← emitSupplyMetrics psl psm
      ["PowerInputWatts", "PowerOutputWatts", "PowerCapacityWatts"] st2
    return (false, st3)

/-- The `for power_supply in power_supplies` loop (lines 119–120): the
flag is *overwritten* by each member's result, so only the last member
decides it. -/
def psuLoop (col : Col) : List JVal → Bool → St → Except PyErr (Bool × St)
  | [], no, st => .ok (no, st)
  | m :: rest, _, st => do
      let (no', st') ← getPowerSupplyMetrics col m st
      psuLoop col rest no' st'

/-- `get_power_subsystem_metrics` (lines 65–122). -/
def getPowerSubsystemMetrics (col : Col) (url : String) (st0 : St) :
    Except PyErr (Bool × St) := do
  let (powerSubsystem, st1) ← connectServer col (.str url) st0
  let st2 ← emitDirectFields col powerSubsystem ["CapacityWatts", "Allocation"] st1
  let psObj ← jGetD powerSubsystem "PowerSupplies" (JVal.obj [])
  let powerSuppliesUrl ← jGetD psObj "@odata.id" JVal.null
  if !(jTruthy powerSuppliesUrl) then
    return (true, warn col .noPowerSuppliesUrl st2)
  else
    let (coll, st3) ← connectServer col powerSuppliesUrl st2
    let members ← jIndexV coll (.str "Members")
    let ms ← jIter members
    psuLoop col ms true st3

/-- The inner `for metric in metrics` loop of `get_old_power_metrics`
(lines 200–221). -/
def oldPsuMetricLoop (col : Col) (psu : JVal) (psuName psuModel : JVal) :
    List String → Bool → St → Except PyErr (Bool × St)
  | [], no, st => .ok (no, st)
  | metric :: rest, no, st => do
      let present ← jContains psu metric
      if !present then
        oldPsuMetricLoop col psu psuName psuModel rest no st
      else do
        let v ← jIndexV psu (.str metric)
        let cl := dictUpdate
          [("device_name", psuName), ("device_model", psuModel),
           ("type", JVal.str metric)] col.labels
        oldPsuMetricLoop col psu psuName psuModel rest false
          (addPower (nanOr v) cl st)

/-- The `for psu in power_data['PowerSupplies']` loop (lines 188–221):
a present-but-null `Name`/`Model` is normalized to `"unknown"`. -/
def oldPsuLoop (col : Col) : List JVal → Bool → St → Except PyErr (Bool × St)
  | [], no, st => .ok (no, st)
  | psu :: rest, no, st => do
      let nmRaw ← jGetD psu "Name" (.str "unknown")
      let psuName := match nmRaw with | .null => JVal.str "unknown" | v => v
      let mdRaw ← jGetD psu "Model" (.str "unknown")
      let psuModel := match mdRaw with | .null => JVal.str "unknown" | v => v
      let (no', st') ← oldPsuMetricLoop col psu psuName psuModel
        ["PowerOutputWatts", "EfficiencyPercent", "PowerInputWatts", "LineInputVoltage"]
        no st
      oldPsuLoop col rest no' st'

/-- `get_old_power_metrics` (lines 171–223): the deprecated `Power` path. -/
def getOldPowerMetrics (col : Col) (url : String) (st0 : St) :
    Except PyErr (Bool × St) := do
  let (powerData, st1) ← connectServer col (.str url) st0
  if !(jTruthy powerData) then
    return (true, st1)
  else
    let psusV ← jIndexV powerData (.str "PowerSupplies")
    let psus ← jIter psusV
    oldPsuLoop col psus true st1

/-- `get_power_metrics` (lines 45–63): the return value of the
deprecated fallback is *discarded* (line 55), so the final warning is
decided by the modern pass's flag alone. -/
def getPowerMetrics (col : Col) (st0 : St) : Except PyErr St :=
  (match col.urls.powerSubsystem with
   | some u => getPowerSubsystemMetrics col u st0
   | none => pure (true, st0)) >>= fun (no1, st1) =>
  (match col.urls.power with
   | some u =>
       if no1 then getOldPowerMetrics col u st1 >>= fun (_, s) => pure s
       else pure st1
   | none => pure st1) >>= fun st2 =>
  if no1 then pure (warn col .noPowerUrl st2) else pure st2

/-! ## Thermal reconciliation (`get_temp_metrics`) -/

/-- Reading of the summary entry looked up under key `k` (total helper
used to state theorems; the executable path below re-does the lookup the
way the source does). -/
def summaryReading (fs : List (String × JVal)) (k : String) : JVal :=
  match lookupJ fs k with
  | some (.obj efs) => (lookupJ efs "Reading").getD JVal.null
  | _ => JVal.null

/-- The `for metric in thermal_metrics` loop (lines 235–245): one
`Temperature` sample per key, labelled `type=<key>`, null reading → NaN. -/
def tempLoop (col : Col) (tm : JVal) : List JVal → St → Except PyErr St
  | [], st => .ok st
  | k :: rest, st => do
      let cl := dictUpdate [("type", k)] col.labels
      let entry ← jIndexV tm k
      let reading ← jIndexV entry (.str "Reading")
      tempLoop col tm rest (addTemp (nanOr reading) cl st)

/-- `get_temp_metrics` (lines 225–245): nothing at all happens when the
`ThermalSubsystem` locator is absent (no warning, no fetch). -/
def getTempMetrics (col : Col) (st0 : St) : Except PyErr St := do
  match col.urls.thermalSubsystem with
  | none => return st0
  | some u => do
      let (ts, st1) ← connectServer col (.str u) st0
      let tmEntry ← jIndexV ts (.str "ThermalMetrics")
      let tmUrl ← jIndexV tmEntry (.str "@odata.id")
      let (result, st2) ← connectServer col tmUrl st1
      let tm ← jGetD result "TemperatureSummaryCelsius" (JVal.obj [])
      let ks ← jIter tm
      tempLoop col tm ks st2

/-! ## Fan reconciliation (`get_fan_metrics` and helpers) -/

/-- `_rpm_from_fan` (lines 247–255): the raw `Reading`/`ReadingRPM`
value is returned verbatim (the source does not coerce RPM values). -/
def rpmFromFan (fan : JVal) : Except PyErr (Option JVal) := do
  if !(jTruthy fan) then return none
  let ru ← jGetD fan "ReadingUnits" JVal.null
  if jEqStr ru "RPM" then
    let rd ← jGetD fan "Reading" JVal.null
    if !(jIsNull rd) then return some rd
  let rrpm ← jGetD fan "ReadingRPM" JVal.null
  if !(jIsNull rrpm) then return some rrpm
  return none

/-- `_pwm_from_fan` (lines 258–277).  The two-key candidate loop is
unrolled (`DutyCyclePercent`, then `ReadingPercent`); the final
`float(..)` coercion is `pyFloat`, whose failure is the caught
`ValueError`/`TypeError`. -/
def pwmFromFan (fan : JVal) : Except PyErr (Option ℚ) :=
  if !(jTruthy fan) then pure none
  else
    jGetD fan "ReadingUnits" JVal.null >>= fun ru =>
    (if jEqStr ru "Percent" || jEqStr ru "%" then
        jGetD fan "Reading" JVal.null >>= fun rd =>
        pure (if jIsNull rd then none else some rd)
      else pure none) >>= fun v0 =>
    (if v0.isNone then
        jGetD fan "DutyCyclePercent" JVal.null >>= fun v =>
        pure (if jIsNull v then v0 else some v)
      else pure v0) >>= fun v1 =>
    (if v1.isNone then
        jGetD fan "ReadingPercent" JVal.null >>= fun v =>
        pure (if jIsNull v then v1 else some v)
      else pure v1) >>= fun v2 =>
    (if v2.isNone then
        jGetD fan "Oem" (JVal.obj []) >>= fun oem =>
        jGetD oem "Dell" (JVal.obj []) >>= fun dell =>
        jGetD dell "FanPWM" JVal.null >>= fun fp =>
        pure (if jIsNull fp then none else some fp)
      else pure v2) >>= fun v3 =>
    match v3 with
    | none => pure none
    | some v => pure (pyFloat v)

/-- The `for member in members` loop of the modern pass (lines 291–296):
fetch each fan detail and accumulate the two value lists. -/
def fanMemberLoop (col : Col) : List JVal → List JVal → List ℚ → St →
    Except PyErr (List JVal × List ℚ × St)
  | [], rpm, pwm, st => .ok (rpm, pwm, st)
  | m :: rest, rpm, pwm, st => do
      let oid ← jIndexV m (.str "@odata.id")
      let (fanData, st1) ← connectServer col oid st
      let r ← rpmFromFan fanData
      let rpm1 := match r with | some v => rpm ++ [v] | none => rpm
      let p ← pwmFromFan fanData
      let pwm1 := match p with | some q => pwm ++ [q] | none => pwm
      fanMemberLoop col rest rpm1 pwm1 st1

/-- The `for fan in thermal.get('Fans', [])` loop of the deprecated pass
(lines 300–304): both extractions run, appending to the *same* lists the
modern pass filled. -/
def oldFanLoop : List JVal → List JVal → List ℚ →
    Except PyErr (List JVal × List ℚ)
  | [], rpm, pwm => .ok (rpm, pwm)
  | fan :: rest, rpm, pwm => do
      let r ← rpmFromFan fan
      let rpm1 := match r with | some v => rpm ++ [v] | none => rpm
      let p ← pwmFromFan fan
      let pwm1 := match p with | some q => pwm ++ [q] | none => pwm
      oldFanLoop rest rpm1 pwm1

/-- Lines 286–296: gather the fan value lists from the modern
`ThermalSubsystem` schema (empty lists when the locator, the `Fans`
pointer or the member list is absent). -/
def modernFanValues (col : Col) (st0 : St) :
    Except PyErr (List JVal × List ℚ × St) := do
  match col.urls.thermalSubsystem with
  | none => return ([], [], st0)
  | some u => do
      let (ts, st1) ← connectServer col (.str u) st0
      let fobj ← jGetD ts "Fans" (JVal.obj [])
      let fansUrl ← jGetD fobj "@odata.id" JVal.null
      if !(jTruthy fansUrl) then
        return ([], [], st1)
      else
        let (fcoll, st2) ← connectServer col fansUrl st1
        let members ← jGetD fcoll "Members" (JVal.arr [])
        let ms ← jIter members
        fanMemberLoop col ms [] [] st2

/-- Lines 299–304: the deprecated `Thermal` fallback block, run with the
value lists the modern pass produced. -/
def oldFanPhase (col : Col) (u : String) (rpm : List JVal) (pwm : List ℚ)
    (st1 : St) : Except PyErr (List JVal × List ℚ × St) := do
  let (thermal, st2) ← connectServer col (.str u) st1
  let fansV ← jGetD thermal "Fans" (JVal.arr [])
  let fans ← jIter fansV
  let (rpm2, pwm2) ← oldFanLoop fans rpm pwm
  return (rpm2, pwm2, st2)

/-- Lines 283–304: the whole gathering phase, with the fallback gated
solely on the RPM list being empty and a `Thermal` locator existing. -/
def collectFanValues (col : Col) (st0 : St) :
    Except PyErr (List JVal × List ℚ × St) := do
  let (rpm, pwm, st1) ← modernFanValues col st0
  if rpm.isEmpty then
    match col.urls.thermal with
    | some u => oldFanPhase col u rpm pwm st1
    | none => return (rpm, pwm, st1)
  else return (rpm, pwm, st1)

/-- Lines 309–320: emit the average-RPM sample when the list is
non-empty (the sum can raise, since RPM values are kept verbatim), else
warn. -/
def emitFanRPMStage (col : Col) (rpm : List JVal) (st : St) :
    Except PyErr St :=
  if !rpm.isEmpty then do
    let s ← jSum rpm
    pure (addFanRPM (.val (.num (s / (rpm.length : ℚ))))
      (dictUpdate [("type", JVal.str "average")] col.labels) st)
  else pure (warn col .noFanRPM st)

/-- Lines 322–333: emit the average-PWM sample when the list is
non-empty, else warn. -/
def emitFanPWMStage (col : Col) (pwm : List ℚ) (st1 : St) :
    Except PyErr St :=
  if !pwm.isEmpty then
    pure (addFanPWM (.val (.num (pwm.sum / (pwm.length : ℚ))))
      (dictUpdate [("type", JVal.str "average")] col.labels) st1)
  else pure (warn col .noFanPWM st1)

/-- Lines 306–333: emit at most one average sample per non-empty list
(label `type="average"`, shared by both sub-metrics), and one warning
per empty list. -/
def emitFanAverages (col : Col) (rpm : List JVal) (pwm : List ℚ) (st : St) :
    Except PyErr St :=
  emitFanRPMStage col rpm st >>= emitFanPWMStage col pwm

/-- `get_fan_metrics` (lines 280–333). -/
def getFanMetrics (col : Col) (st0 : St) : Except PyErr St := do
  let (rpm, pwm, st1) ← collectFanValues col st0
  emitFanAverages col rpm pwm st1

/-! ## Cycle driver (`collect`, lines 336–341) -/

/-- `collect`: power, then thermal, then fan, with no exception handler
in between — an `Except.error` anywhere aborts the whole cycle. -/
def collect (col : Col) (st0 : St) : Except PyErr St := do
  let st1 ← getPowerMetrics col st0
  let st2 ← getTempMetrics col st1
  getFanMetrics col st2

/-! ## Predicates used by the theorems -/

/-- Keys of a label mapping are pairwise distinct (true of every Python
dict, and preserved by all the dict operations used here). -/
def keysNodup (l : Labels) : Prop := (l.map Prod.fst).Nodup

/-- Every pair of `base` is found in `l` with exactly the value `base`
assigns it (so `l` carries the complete base label set, base values
winning on key collisions). -/
def baseLe (base l : Labels) : Prop :=
  ∀ p ∈ base, lookupJ l p.1 = lookupJ base p.1

/-- Every sample of every gauge carries the base labels, base values
winning. -/
def stBaseOk (base : Labels) (st : St) : Prop :=
  (∀ s ∈ st.power, baseLe base s.2) ∧
  (∀ s ∈ st.temperature, baseLe base s.2) ∧
  (∀ s ∈ st.fanRPM, baseLe base s.2) ∧
  (∀ s ∈ st.fanPWM, baseLe base s.2)

def LogRec.isFanRPMWarn (r : LogRec) : Bool :=
  match r.kind with | .noFanRPM => true | _ => false

def LogRec.isFanPWMWarn (r : LogRec) : Bool :=
  match r.kind with | .noFanPWM => true | _ => false

/-- The raw PWM candidate value of a fan object, selected in the fixed
priority order the specification §4.3 states: `Reading` when
`ReadingUnits` is `"Percent"`/`"%"`, else the first non-null of
`DutyCyclePercent` then `ReadingPercent`, else the nested
`Oem.Dell.FanPWM` field; `none` when every candidate is absent/null. -/
def specPwmChoice (fan : JVal) : Option JVal :=
  match fan with
  | .obj fs =>
      let g := fun k => (lookupJ fs k).getD JVal.null
      if (jEqStr (g "ReadingUnits") "Percent" || jEqStr (g "ReadingUnits") "%")
          && !(jIsNull (g "Reading")) then some (g "Reading")
      else if !(jIsNull (g "DutyCyclePercent")) then some (g "DutyCyclePercent")
      else if !(jIsNull (g "ReadingPercent")) then some (g "ReadingPercent")
      else
        match (lookupJ fs "Oem").getD (JVal.obj []) with
        | .obj ofs =>
            match (lookupJ ofs "Dell").getD (JVal.obj []) with
            | .obj dfs =>
                let fp := (lookupJ dfs "FanPWM").getD JVal.null
                if jIsNull fp then none else some fp
            | _ => none
        | _ => none
  | _ => none

/-- The `Oem`/`Dell` levels of the vendor chain are dicts (or absent),
so the source's un-guarded `.get` chain cannot raise. -/
def oemChainOk (fan : JVal) : Bool :=
  match fan with
  | .obj fs =>
      match (lookupJ fs "Oem").getD (JVal.obj []) with
      | .obj ofs =>
          match (lookupJ ofs "Dell").getD (JVal.obj []) with
          | .obj _ => true
          | _ => false
      | _ => false
  | _ => false

/-- Entry `k` of a `TemperatureSummaryCelsius` mapping is a dict that
has a `Reading` key (possibly null), as the thermal loop requires. -/
def tempEntryOk (fs : List (String × JVal)) (k : String) : Bool :=
  match lookupJ fs k with
  | some (.obj efs) => (lookupJ efs "Reading").isSome
  | _ => false

/-! ## Concrete collection cycles used as failing inputs and witnesses -/

/-- Resource graph for the C1 failing input: the modern subsystem's
first supply yields a sample, the *last* member has no `Metrics`
pointer, and the deprecated `Power` resource is also populated. -/
def fetchA : String → JVal
  | "ps" => .obj [("PowerSupplies", .obj [("@odata.id", .str "psus")])]
  | "psus" => .obj [("Members", .arr
      [.obj [("@odata.id", .str "psu1")], .obj [("@odata.id", .str "psu2")]])]
  | "psu1" => .obj [("Name", .str "PSU1"),
      ("Metrics", .obj [("@odata.id", .str "psu1m")])]
  | "psu1m" => .obj [("PowerInputWatts", .obj [("Reading", .num 100)])]
  | "psu2" => .obj [("Name", .str "PSU2")]
  | "pw" => .obj [("PowerSupplies", .arr
      [.obj [("Name", .str "OldPSU"), ("Model", .str "M"),
             ("PowerOutputWatts", .num 50)]])]
  | _ => .null

def colA : Col :=
  { target := "t", host := "h", model := "m"
    labels := [("server", .str "h")]
    urls := ⟨some "ps", some "pw", none, none⟩
    fetch := fetchA }

/-- C3 failing input: no modern locator at all, deprecated `Power`
present and productive. -/
def colB : Col :=
  { target := "t", host := "h", model := "m"
    labels := [("server", .str "h")]
    urls := ⟨none, some "pw", none, none⟩
    fetch := fetchA }

/-- C2 counterexample: a `ThermalSubsystem` document without a
`ThermalMetrics` key (as a failed/empty fetch would give). -/
def colC : Col :=
  { target := "t", host := "h", model := "m"
    labels := [("server", .str "h")]
    urls := ⟨none, none, some "ts", none⟩
    fetch := fun u => if u = "ts" then .obj [("Id", .str "TS")] else .null }

/-- A target advertising no locator at all. -/
def colNone : Col :=
  { target := "t", host := "h", model := "m"
    labels := [("server", .str "h")]
    urls := ⟨none, none, none, none⟩
    fetch := fun _ => .null }

/-- C6 input: the modern schema yields PWM 30 but no RPM; the deprecated
`Thermal` resource has one fan with RPM 1000 and PWM 50. -/
def fetchF : String → JVal
  | "ts" => .obj [("Fans", .obj [("@odata.id", .str "fans")])]
  | "fans" => .obj [("Members", .arr [.obj [("@odata.id", .str "fan1")]])]
  | "fan1" => .obj [("DutyCyclePercent", .num 30)]
  | "th" => .obj [("Fans", .arr
      [.obj [("ReadingUnits", .str "RPM"), ("Reading", .num 1000),
             ("ReadingPercent", .num 50)]])]
  | _ => .null

def colF : Col :=
  { target := "t", host := "h", model := "m"
    labels := [("server", .str "h")]
    urls := ⟨none, none, some "ts", some "th"⟩
    fetch := fetchF }

/-- C4 witness input: three fans reading 1000/2000/3000 RPM, no PWM
source anywhere. -/
def fetchD : String → JVal
  | "ts" => .obj [("Fans", .obj [("@odata.id", .str "fans")])]
  | "fans" => .obj [("Members", .arr
      [.obj [("@odata.id", .str "fan1")], .obj [("@odata.id", .str "fan2")],
       .obj [("@odata.id", .str "fan3")]])]
  | "fan1" => .obj [("ReadingUnits", .str "RPM"), ("Reading", .num 1000)]
  | "fan2" => .obj [("ReadingUnits", .str "RPM"), ("Reading", .num 2000)]
  | "fan3" => .obj [("ReadingUnits", .str "RPM"), ("Reading", .num 3000)]
  | _ => .null

def colD : Col :=
  { target := "t", host := "h", model := "m"
    labels := [("server", .str "h")]
    urls := ⟨none, none, some "ts", none⟩
    fetch := fetchD }

/-- C5 witness input: the modern pass finds an empty fan member list, the
deprecated `Thermal` locator is present with one 800-RPM fan. -/
def fetchE : String → JVal
  | "ts" => .obj [("Fans", .obj [("@odata.id", .str "fans")])]
  | "fans" => .obj [("Members", .arr [])]
  | "th" => .obj [("Fans", .arr [.obj [("ReadingRPM", .num 800)]])]
  | _ => .null

def colE : Col :=
  { target := "t", host := "h", model := "m"
    labels := [("server", .str "h")]
    urls := ⟨none, none, some "ts", some "th"⟩
    fetch := fetchE }

/-- C8 witness input: the spec's end-to-end thermal example. -/
def fetchG : String → JVal
  | "ts8" => .obj [("ThermalMetrics", .obj [("@odata.id", .str "tm8")])]
  | "tm8" => .obj [("TemperatureSummaryCelsius", .obj
      [("CPU", .obj [("Reading", .num 45)]),
       ("Ambient", .obj [("Reading", .num 22)])])]
  | _ => .null

def colG : Col :=
  { target := "t", host := "h", model := "m"
    labels := [("server", .str "h")]
    urls := ⟨none, none, some "ts8", none⟩
    fetch := fetchG }

/-- C10 witness input: the base label set itself contains a `type` key,
which must override the per-sample `type` discriminator. -/
def colH : Col :=
  { target := "t", host := "h", model := "m"
    labels := [("host", .str "h"), ("type", .str "BASE")]
    urls := ⟨none, some "pw", none, none⟩
    fetch := fetchA }

/-- The two C7 coercion-example fans from the specification. -/
def fanOem42 : JVal :=
  .obj [("Oem", .obj [("Dell", .obj [("FanPWM", .str "42")])])]

def fanOemBad : JVal :=
  .obj [("Oem", .obj [("Dell", .obj [("FanPWM", .str "not-a-number")])])]

/-- State after a cycle over `colNone`'s power pass: only the
no-power-url warning. -/
def stNoPower : St := { St.init with log := [⟨.noPowerUrl, "t", "h", "m"⟩] }

/-- Gather-phase state of `colD`'s cycle (trace of the five fetches). -/
def stD1 : St := { St.init with fetched := ["ts", "fans", "fan1", "fan2", "fan3"] }

/-- Final state of `colD`'s fan pass: one average-RPM sample, no PWM
sample, one PWM warning. -/
def stD : St :=
  { St.init with
    fanRPM := [(SVal.val (JVal.num ((0 + 1000 + 2000 + 3000 : ℚ) / ((3 : ℕ) : ℚ))),
      dictUpdate [("type", JVal.str "average")] colD.labels)],
    log := [⟨.noFanPWM, "t", "h", "m"⟩],
    fetched := ["ts", "fans", "fan1", "fan2", "fan3"] }

/-- Final state of `colH`'s full cycle: the deprecated-path sample whose
`type` label was overridden by the base label set. -/
def stH : St :=
  { St.init with
    power := [(SVal.val (JVal.num 50),
      [("device_name", JVal.str "OldPSU"), ("device_model", JVal.str "M"),
       ("type", JVal.str "BASE"), ("host", JVal.str "h")])],
    log := [⟨.noPowerUrl, "t", "h", "m"⟩, ⟨.noFanRPM, "t", "h", "m"⟩,
            ⟨.noFanPWM, "t", "h", "m"⟩],
    fetched := ["pw"] }

/-! ## Helper lemmas -/

theorem exc_bind_ok {α β : Type} (a : α) (f : α → Except PyErr β) :
    (Except.ok a >>= f) = f a := rfl

theorem exc_bind_err {α β : Type} (e : PyErr) (f : α → Except PyErr β) :
    ((Except.error e : Except PyErr α) >>= f) = .error e := rfl

theorem exc_bind_eq_ok {α β : Type} {x : Except PyErr α} {f : α → Except PyErr β}
    {b : β} (h : (x >>= f) = .ok b) : ∃ a, x = .ok a ∧ f a = .ok b := by
  cases x with
  | error e => exact absurd h (by simp [exc_bind_err])
  | ok a => exact ⟨a, rfl, h⟩

/-! ## C1 -/

/-- C1 (code bug): in `colA`'s cycle both schema variants individually
yield power-supply samples, yet the deprecated `Power` resource (`"pw"`)
is still fetched — the modern pass produced the `PowerInputWatts`
sample of `PSU1`, but the `no_psu_metrics` flag is overwritten by the
last member (which lacks `Metrics`) — and the samples of the two
variants end up merged in the power gauge (and the no-power warning
even fires).  This evaluation exhibits the violated invariant. -/
theorem c1_deprecated_merged_despite_modern_sample :
    getPowerMetrics colA St.init = Except.ok
      { power := [
          (SVal.val (JVal.num 100),
            [("type", JVal.str "PowerInputWatts"), ("Name", JVal.str "PSU1"),
             ("Manufacturer", JVal.str "unknown"), ("Model", JVal.str "unknown"),
             ("server", JVal.str "h")]),
          (SVal.val (JVal.num 50),
            [("device_name", JVal.str "OldPSU"), ("device_model", JVal.str "M"),
             ("type", JVal.str "PowerOutputWatts"), ("server", JVal.str "h")])],
        temperature := [], fanRPM := [], fanPWM := [],
        log := [⟨.noPSUMetrics (JVal.str "PSU2"), "t", "h", "m"⟩,
                ⟨.noPowerUrl, "t", "h", "m"⟩],
        fetched := ["ps", "psus", "psu1", "psu1m", "psu2", "pw"] } := rfl

/-! ## C3 -/

/-- C3 (code bug): with no modern locator and a productive deprecated
`Power` resource, the fallback pass emits a power-supply sample, yet the
"no power url" warning still fires, because `get_power_metrics` discards
the fallback's `no_psu_metrics` return value — the claim (and spec step
4.1.5) require the warning precisely when both passes produced nothing. -/
theorem c3_warning_fires_despite_fallback_samples :
    getPowerMetrics colB St.init = Except.ok
      { power := [
          (SVal.val (JVal.num 50),
            [("device_name", JVal.str "OldPSU"), ("device_model", JVal.str "M"),
             ("type", JVal.str "PowerOutputWatts"), ("server", JVal.str "h")])],
        temperature := [], fanRPM := [], fanPWM := [],
        log := [⟨.noPowerUrl, "t", "h", "m"⟩],
        fetched := ["pw"] } := rfl

/-! ## C2 -/

/-- C2 counterexample: a `ThermalSubsystem` document lacking the
`ThermalMetrics` key (exactly what an unavailable resource yields) makes
the whole cycle abort with an uncaught KeyError — the exception
propagates to the caller and the fan family never runs, refuting the
claimed independence and no-propagation. -/
theorem c2_exception_escapes_core :
    collect colC St.init = Except.error (PyErr.keyError "ThermalMetrics") := rfl

/-- C2 amended: the driver does run power, then thermal, then fan in
that fixed order, but the families are *not* independent — an exception
in the thermal family propagates to the caller unchanged (so the fan
family never contributes), while only when thermal succeeds does the
cycle continue into the fan family. -/
theorem c2_fixed_order_without_isolation (col : Col) (st st1 : St)
    (h1 : getPowerMetrics col st = Except.ok st1) :
    (∀ e, getTempMetrics col st1 = Except.error e →
      collect col st = Except.error e) ∧
    (∀ st2, getTempMetrics col st1 = Except.ok st2 →
      collect col st = getFanMetrics col st2) := by
  constructor
  · intro e h2
    unfold collect
    rw [h1, exc_bind_ok, h2, exc_bind_err]
  · intro st2 h2
    unfold collect
    rw [h1, exc_bind_ok, h2, exc_bind_ok]

/-- Witness for the amended C2 theorem at a concrete target with no
locators: the power warning fires, thermal is a no-op, and the cycle
ends in the fan family. -/
theorem c2_fixed_order_without_isolation_witness :
    collect colNone St.init = getFanMetrics colNone stNoPower :=
  (c2_fixed_order_without_isolation colNone St.init stNoPower rfl).2 stNoPower rfl

/-! ## C6 -/

/-- The deprecated fan loop only ever *appends* to the value lists it is
handed — it never discards what the modern pass gathered. -/
theorem oldFanLoop_append (fans : List JVal) :
    ∀ rpm pwm r p, oldFanLoop fans rpm pwm = .ok (r, p) →
      ∃ r' p', r = rpm ++ r' ∧ p = pwm ++ p' := by
  induction fans with
  | nil =>
      intro rpm pwm r p h
      unfold oldFanLoop at h
      cases h
      exact ⟨[], [], by simp, by simp⟩
  | cons fan rest ih =>
      intro rpm pwm r p h
      unfold oldFanLoop at h
      obtain ⟨ro, h1, h⟩ := exc_bind_eq_ok h
      obtain ⟨po, h2, h⟩ := exc_bind_eq_ok h
      cases ro with
      | none =>
          cases po with
          | none =>
              obtain ⟨r', p', hr, hp⟩ := ih _ _ _ _ h
              exact ⟨r', p', hr, hp⟩
          | some q =>
              obtain ⟨r', p', hr, hp⟩ := ih _ _ _ _ h
              exact ⟨r', q :: p', by simpa using hr, by simpa using hp⟩
      | some v =>
          cases po with
          | none =>
              obtain ⟨r', p', hr, hp⟩ := ih _ _ _ _ h
              exact ⟨v :: r', p', by simpa using hr, by simpa using hp⟩
          | some q =>
              obtain ⟨r', p', hr, hp⟩ := ih _ _ _ _ h
              exact ⟨v :: r', q :: p', by simpa using hr, by simpa using hp⟩

/-- C6 counterexample: on `colF` the modern schema yields PWM 30 (and no
RPM), the deprecated path extracts PWM 50, and the emitted PWM sample is
the mean over *both*, 40 — not the deprecated-only value 50, so the
modern PWM values were not discarded as the claim states. -/
theorem c6_pwm_average_merges_both_schemas :
    getFanMetrics colF St.init = Except.ok
      { power := [], temperature := [],
        fanRPM := [(SVal.val (JVal.num ((0 + 1000 : ℚ) / ((1 : ℕ) : ℚ))),
          [("type", JVal.str "average"), ("server", JVal.str "h")])],
        fanPWM := [(SVal.val (JVal.num
            (([30, 50] : List ℚ).sum / ((2 : ℕ) : ℚ))),
          [("type", JVal.str "average"), ("server", JVal.str "h")])],
        log := [],
        fetched := ["ts", "fans", "fan1", "th"] } ∧
    (([30, 50] : List ℚ).sum / ((2 : ℕ) : ℚ) = 40) ∧ (40 : ℚ) ≠ 50 :=
  ⟨rfl, by norm_num, by norm_num⟩

/-- C6 amended: when the modern pass yields PWM values but no RPM values
and the deprecated fallback runs, the modern PWM values are *retained* —
the deprecated extraction appends to them, so the emitted PWM sample is
the mean over the modern and deprecated values combined. -/
theorem c6_modern_pwm_retained (col : Col) (st st1 st2 : St) (pwm0 : List ℚ)
    (u : String) (r2 : List JVal) (p2 : List ℚ)
    (h1 : modernFanValues col st = .ok ([], pwm0, st1))
    (h2 : col.urls.thermal = some u)
    (h3 : oldFanPhase col u [] pwm0 st1 = .ok (r2, p2, st2)) :
    p2.take pwm0.length = pwm0 ∧
    collectFanValues col st = .ok (r2, p2, st2) := by
  constructor
  · unfold oldFanPhase at h3
    obtain ⟨ts, hc, h3⟩ := exc_bind_eq_ok h3
    obtain ⟨fansV, hf, h3⟩ := exc_bind_eq_ok h3
    obtain ⟨fans, hi, h3⟩ := exc_bind_eq_ok h3
    obtain ⟨rp, hl, h3⟩ := exc_bind_eq_ok h3
    obtain ⟨rl, pl⟩ := rp
    cases h3
    obtain ⟨r', p', _, hp⟩ := oldFanLoop_append fans [] pwm0 r2 p2 hl
    subst hp
    exact List.take_left ..
  · unfold collectFanValues
    rw [h1, exc_bind_ok]
    simpa [h2] using h3

/-- Witness for the amended C6 theorem on `colF`: modern PWM `[30]` is a
prefix of the final PWM list `[30, 50]`. -/
theorem c6_modern_pwm_retained_witness :
    ([30, 50] : List ℚ).take 1 = [30] ∧
    collectFanValues colF St.init = .ok ([JVal.num 1000], ([30, 50] : List ℚ),
      { St.init with fetched := ["ts", "fans", "fan1", "th"] }) :=
  c6_modern_pwm_retained colF St.init
    { St.init with fetched := ["ts", "fans", "fan1"] }
    { St.init with fetched := ["ts", "fans", "fan1", "th"] }
    [30] "th" [JVal.num 1000] [30, 50] rfl rfl rfl

/-! ## C5 -/

/-- C5: after the modern fan pass, the deprecated `Thermal` resource is
consulted *exactly when* the RPM list is empty and the locator is
present — independently of the PWM list's contents (which is passed
through untouched into the fallback).  When it is not consulted the
gather phase ends with the modern values and no further fetch; when it
is consulted the deprecated resource's URL is fetched (first thing the
fallback does) and both extractions run over its inline `Fans` array
(`oldFanPhase`, which folds `rpmFromFan` and `pwmFromFan` over it). -/
theorem c5_old_thermal_gating (col : Col) (st st1 : St) (rpm : List JVal)
    (pwm : List ℚ) (h : modernFanValues col st = .ok (rpm, pwm, st1)) :
    ((rpm ≠ [] ∨ col.urls.thermal = none) →
        collectFanValues col st = .ok (rpm, pwm, st1)) ∧
    (∀ u, rpm = [] → col.urls.thermal = some u →
        collectFanValues col st = oldFanPhase col u rpm pwm st1 ∧
        ∀ r2 p2 st2, oldFanPhase col u rpm pwm st1 = .ok (r2, p2, st2) →
          st2.fetched = st1.fetched ++ [u]) := by
  constructor
  · intro hgate
    unfold collectFanValues
    rw [h, exc_bind_ok]
    rcases hgate with hne | hnone
    · cases rpm with
      | nil => exact absurd rfl hne
      | cons a l => rfl
    · cases rpm with
      | nil =>
          simp only [List.isEmpty_nil, if_true, hnone]
          rfl
      | cons a l => rfl
  · intro u hrpm hth
    subst hrpm
    constructor
    · unfold collectFanValues
      rw [h, exc_bind_ok]
      simp [hth]
    · intro r2 p2 st2 h3
      unfold oldFanPhase at h3
      obtain ⟨ts, hc, h3⟩ := exc_bind_eq_ok h3
      obtain ⟨fansV, hf, h3⟩ := exc_bind_eq_ok h3
      obtain ⟨fans, hi, h3⟩ := exc_bind_eq_ok h3
      obtain ⟨rp, hl, h3⟩ := exc_bind_eq_ok h3
      obtain ⟨rl, pl⟩ := rp
      cases h3
      cases hc
      rfl

/-- Witness for C5 on `colE` (modern pass: empty member list, so no RPM;
deprecated locator `"th"` present): the gather phase equals the
deprecated fallback run, and that run fetches `"th"`. -/
theorem c5_old_thermal_gating_witness :
    collectFanValues colE St.init
      = oldFanPhase colE "th" [] [] { St.init with fetched := ["ts", "fans"] } ∧
    St.fetched { St.init with fetched := ["ts", "fans", "th"] }
      = ["ts", "fans"] ++ ["th"] := by
  have h := (c5_old_thermal_gating colE St.init
    { St.init with fetched := ["ts", "fans"] } [] [] rfl).2 "th" rfl rfl
  exact ⟨h.1, h.2 [JVal.num 800] []
    { St.init with fetched := ["ts", "fans", "th"] } rfl⟩

/-! ## Label-dictionary lemmas -/

theorem mem_keys_of_lookupJ_some {l : Labels} {k : String} {v : JVal}
    (h : lookupJ l k = some v) : k ∈ l.map Prod.fst := by
  induction l with
  | nil => simp [lookupJ] at h
  | cons p rest ih =>
      by_cases hp : p.1 = k
      · simp [hp]
      · simp only [lookupJ, hp, if_false] at h
        simp [ih h]

theorem lookupJ_none_iff (d : Labels) (k : String) :
    lookupJ d k = none ↔ d.any (fun p => p.1 = k) = false := by
  induction d with
  | nil => simp [lookupJ]
  | cons p rest ih => by_cases hp : p.1 = k <;> simp [lookupJ, hp, ih]

theorem not_mem_keys_of_lookupJ_none {l : Labels} {k : String}
    (h : lookupJ l k = none) : k ∉ l.map Prod.fst := by
  induction l with
  | nil => simp
  | cons p rest ih =>
      by_cases hp : p.1 = k
      · simp [lookupJ, hp] at h
      · simp only [lookupJ, hp, if_false] at h
        simp [ih h]
        exact fun hk => hp hk.symm

theorem lookupJ_append (l1 l2 : Labels) (k : String) :
    lookupJ (l1 ++ l2) k =
      match lookupJ l1 k with
      | some v => some v
      | none => lookupJ l2 k := by
  induction l1 with
  | nil => rfl
  | cons p rest ih =>
      by_cases hp : p.1 = k <;> simp [lookupJ, hp, ih]

theorem lookupJ_map_set_self (d : Labels) (k : String) (v : JVal) :
    d.any (fun p => p.1 = k) = true →
    lookupJ (d.map (fun p => if p.1 = k then (k, v) else p)) k = some v := by
  induction d with
  | nil => intro ha; simp at ha
  | cons p rest ih =>
      intro ha
      by_cases hp : p.1 = k
      · simp [lookupJ, hp]
      · have ha' : rest.any (fun p => p.1 = k) = true := by
          simpa [List.any_cons, hp] using ha
        simp [lookupJ, hp, ih ha']

theorem lookupJ_map_set_ne (d : Labels) (k : String) (v : JVal) (q : String)
    (hq : q ≠ k) :
    lookupJ (d.map (fun p => if p.1 = k then (k, v) else p)) q = lookupJ d q := by
  induction d with
  | nil => rfl
  | cons p rest ih =>
      by_cases hp : p.1 = k
      · have hkq : ¬ k = q := fun h => hq h.symm
        have hpq : ¬ p.1 = q := by rw [hp]; exact hkq
        simp [lookupJ, hp, hkq, hpq, ih]
      · by_cases hpq : p.1 = q <;> simp [lookupJ, hp, hpq, hq, ih]

theorem lookupJ_dictSet_self (d : Labels) (k : String) (v : JVal) :
    lookupJ (dictSet d k v) k = some v := by
  unfold dictSet
  by_cases ha : d.any (fun p => p.1 = k)
  · simp only [ha, if_true]
    exact lookupJ_map_set_self d k v ha
  · simp only [ha, Bool.false_eq_true, if_false]
    rw [lookupJ_append, (lookupJ_none_iff d k).2
      (by revert ha; cases d.any (fun p => p.1 = k) <;> simp)]
    simp [lookupJ]

theorem lookupJ_dictSet_ne (d : Labels) (k : String) (v : JVal) (q : String)
    (hq : q ≠ k) : lookupJ (dictSet d k v) q = lookupJ d q := by
  unfold dictSet
  by_cases ha : d.any (fun p => p.1 = k)
  · simp only [ha, if_true]
    exact lookupJ_map_set_ne d k v q hq
  · simp only [ha, Bool.false_eq_true, if_false]
    rw [lookupJ_append]
    cases h : lookupJ d q with
    | some w => rfl
    | none => simp [lookupJ, (Ne.symm hq : k ≠ q)]

theorem lookupJ_dictUpdate_not_mem (other : Labels) :
    ∀ (d : Labels) (k : String), k ∉ other.map Prod.fst →
      lookupJ (dictUpdate d other) k = lookupJ d k := by
  induction other with
  | nil => intro d k _; rfl
  | cons q rest ih =>
      intro d k hk
      simp only [List.map_cons, List.mem_cons] at hk
      push_neg at hk
      have h1 : dictUpdate d (q :: rest) = dictUpdate (dictSet d q.1 q.2) rest := rfl
      rw [h1, ih _ k hk.2]
      exact lookupJ_dictSet_ne d q.1 q.2 k hk.1

/-! ## C4 -/

theorem emitFanRPMStage_nil (col : Col) (st : St) :
    emitFanRPMStage col [] st = pure (warn col .noFanRPM st) := rfl

theorem emitFanRPMStage_cons (col : Col) (a : JVal) (l : List JVal) (st : St) :
    emitFanRPMStage col (a :: l) st = jSum (a :: l) >>= fun s =>
      pure (addFanRPM (.val (.num (s / (((a :: l) : List JVal).length : ℚ))))
        (dictUpdate [("type", JVal.str "average")] col.labels) st) := rfl

theorem emitFanPWMStage_nil (col : Col) (st1 : St) :
    emitFanPWMStage col [] st1 = pure (warn col .noFanPWM st1) := rfl

theorem emitFanPWMStage_cons (col : Col) (b : ℚ) (m : List ℚ) (st1 : St) :
    emitFanPWMStage col (b :: m) st1 =
      pure (addFanPWM (.val (.num (((b :: m) : List ℚ).sum
          / (((b :: m) : List ℚ).length : ℚ))))
        (dictUpdate [("type", JVal.str "average")] col.labels) st1) := rfl

/-- C4: per cycle the fan pass emits at most one RPM and at most one PWM
sample; a non-empty value list yields exactly one appended sample whose
value is the arithmetic mean of that list and whose `type` label is
`"average"` (given the base labels carry no `type` key), while an empty
list yields no sample for that sub-metric — never a zero or NaN
placeholder — and appends exactly one warning for it, carrying
target/host/model. -/
theorem c4_fan_average_emission (col : Col) (st : St) (rpm : List JVal)
    (pwm : List ℚ) (st1 st' : St)
    (hv : collectFanValues col st = .ok (rpm, pwm, st1))
    (hr : getFanMetrics col st = .ok st')
    (hty : lookupJ col.labels "type" = none) :
    lookupJ (dictUpdate [("type", JVal.str "average")] col.labels) "type"
      = some (JVal.str "average") ∧
    st'.fanRPM.length ≤ st1.fanRPM.length + 1 ∧
    st'.fanPWM.length ≤ st1.fanPWM.length + 1 ∧
    (rpm = [] → st'.fanRPM = st1.fanRPM ∧
      st'.log.filter LogRec.isFanRPMWarn
        = st1.log.filter LogRec.isFanRPMWarn
          ++ [⟨.noFanRPM, col.target, col.host, col.model⟩]) ∧
    (∀ s, rpm ≠ [] → jSum rpm = .ok s →
      st'.fanRPM = st1.fanRPM ++ [(SVal.val (JVal.num (s / (rpm.length : ℚ))),
        dictUpdate [("type", JVal.str "average")] col.labels)] ∧
      st'.log.filter LogRec.isFanRPMWarn
        = st1.log.filter LogRec.isFanRPMWarn) ∧
    (pwm = [] → st'.fanPWM = st1.fanPWM ∧
      st'.log.filter LogRec.isFanPWMWarn
        = st1.log.filter LogRec.isFanPWMWarn
          ++ [⟨.noFanPWM, col.target, col.host, col.model⟩]) ∧
    (pwm ≠ [] →
      st'.fanPWM = st1.fanPWM ++ [(SVal.val (JVal.num
          (pwm.sum / (pwm.length : ℚ))),
        dictUpdate [("type", JVal.str "average")] col.labels)] ∧
      st'.log.filter LogRec.isFanPWMWarn
        = st1.log.filter LogRec.isFanPWMWarn) := by
  have hlab : lookupJ (dictUpdate [("type", JVal.str "average")] col.labels)
      "type" = some (JVal.str "average") := by
    rw [lookupJ_dictUpdate_not_mem col.labels _ _
      (not_mem_keys_of_lookupJ_none hty)]
    simp [lookupJ]
  unfold getFanMetrics at hr
  rw [hv, exc_bind_ok] at hr
  replace hr : emitFanAverages col rpm pwm st1 = Except.ok st' := hr
  unfold emitFanAverages at hr
  obtain ⟨stm, h1, h2⟩ := exc_bind_eq_ok hr
  cases rpm with
  | nil =>
      rw [emitFanRPMStage_nil] at h1
      cases h1
      cases pwm with
      | nil =>
          rw [emitFanPWMStage_nil] at h2
          cases h2
          refine ⟨hlab, by simp [warn], by simp [warn], ?_, ?_, ?_, ?_⟩
          · exact fun _ => ⟨by simp [warn],
              by simp [warn, List.filter_append, LogRec.isFanRPMWarn,
                LogRec.isFanPWMWarn]⟩
          · exact fun s hne _ => absurd rfl hne
          · exact fun _ => ⟨by simp [warn],
              by simp [warn, List.filter_append, LogRec.isFanRPMWarn,
                LogRec.isFanPWMWarn]⟩
          · exact fun hne => absurd rfl hne
      | cons b m =>
          rw [emitFanPWMStage_cons] at h2
          cases h2
          refine ⟨hlab, by simp [warn, addFanPWM], by simp [warn, addFanPWM], ?_, ?_, ?_, ?_⟩
          · exact fun _ => ⟨by simp [warn, addFanPWM],
              by simp [warn, addFanPWM, List.filter_append, LogRec.isFanRPMWarn,
                LogRec.isFanPWMWarn]⟩
          · exact fun s hne _ => absurd rfl hne
          · intro h; cases h
          · exact fun _ => ⟨by simp [warn, addFanPWM],
              by simp [warn, addFanPWM, List.filter_append, LogRec.isFanRPMWarn,
                LogRec.isFanPWMWarn]⟩
  | cons a l =>
      rw [emitFanRPMStage_cons] at h1
      obtain ⟨s0, hs0, h1⟩ := exc_bind_eq_ok h1
      replace h1 : Except.ok (addFanRPM (SVal.val (JVal.num
          (s0 / (((a :: l) : List JVal).length : ℚ))))
        (dictUpdate [("type", JVal.str "average")] col.labels) st1)
          = Except.ok stm := h1
      cases h1
      cases pwm with
      | nil =>
          rw [emitFanPWMStage_nil] at h2
          cases h2
          refine ⟨hlab, by simp [warn, addFanRPM], by simp [warn, addFanRPM], ?_, ?_, ?_, ?_⟩
          · intro h; cases h
          · intro s hne hs
            rw [hs0] at hs
            cases hs
            exact ⟨by simp [warn, addFanRPM],
              by simp [warn, addFanRPM, List.filter_append, LogRec.isFanRPMWarn,
                LogRec.isFanPWMWarn]⟩
          · exact fun _ => ⟨by simp [warn, addFanRPM],
              by simp [warn, addFanRPM, List.filter_append, LogRec.isFanRPMWarn,
                LogRec.isFanPWMWarn]⟩
          · exact fun hne => absurd rfl hne
      | cons b m =>
          rw [emitFanPWMStage_cons] at h2
          cases h2
          refine ⟨hlab, by simp [addFanRPM, addFanPWM], by simp [addFanRPM, addFanPWM], ?_, ?_, ?_, ?_⟩
          · intro h; cases h
          · intro s hne hs
            rw [hs0] at hs
            cases hs
            exact ⟨by simp [addFanRPM, addFanPWM], by simp [addFanRPM, addFanPWM]⟩
          · intro h; cases h
          · exact fun _ => ⟨by simp [addFanRPM, addFanPWM],
              by simp [addFanRPM, addFanPWM]⟩

/-- Witness for C4 on `colD` (RPM readings 1000/2000/3000, no PWM
source): exactly one RPM sample whose value is the mean 2000, no PWM
sample, and exactly one PWM warning. -/
theorem c4_fan_average_emission_witness :
    St.fanRPM stD = St.fanRPM stD1 ++ [(SVal.val (JVal.num
        ((0 + 1000 + 2000 + 3000 : ℚ) / ((3 : ℕ) : ℚ))),
      dictUpdate [("type", JVal.str "average")] colD.labels)] ∧
    (0 + 1000 + 2000 + 3000 : ℚ) / ((3 : ℕ) : ℚ) = 2000 ∧
    St.fanPWM stD = St.fanPWM stD1 ∧
    (St.log stD).filter LogRec.isFanPWMWarn
      = (St.log stD1).filter LogRec.isFanPWMWarn
        ++ [⟨.noFanPWM, "t", "h", "m"⟩] := by
  have h := c4_fan_average_emission colD St.init
    [JVal.num 1000, JVal.num 2000, JVal.num 3000] [] stD1 stD rfl rfl rfl
  refine ⟨?_, by norm_num, ?_, ?_⟩
  · exact (h.2.2.2.2.1 (0 + 1000 + 2000 + 3000 : ℚ) (by simp) rfl).1
  · exact (h.2.2.2.2.2.1 rfl).1
  · exact (h.2.2.2.2.2.1 rfl).2

/-! ## C7 -/

theorem oemChainOk_elim {fs : List (String × JVal)}
    (h : oemChainOk (JVal.obj fs) = true) :
    ∃ ofs dfs, (lookupJ fs "Oem").getD (JVal.obj []) = JVal.obj ofs ∧
      (lookupJ ofs "Dell").getD (JVal.obj []) = JVal.obj dfs := by
  simp only [oemChainOk] at h
  cases hO : (lookupJ fs "Oem").getD (JVal.obj []) with
  | obj ofs =>
      simp only [hO] at h
      cases hD : (lookupJ ofs "Dell").getD (JVal.obj []) with
      | obj dfs => exact ⟨ofs, dfs, rfl, hD⟩
      | null => simp [hD] at h
      | bool b => simp [hD] at h
      | num q => simp [hD] at h
      | str s => simp [hD] at h
      | arr xs => simp [hD] at h
  | null => simp [hO] at h
  | bool b => simp [hO] at h
  | num q => simp [hO] at h
  | str s => simp [hO] at h
  | arr xs => simp [hO] at h

/-- C7: for a (non-empty) fan dict whose vendor chain is well-formed,
`_pwm_from_fan` returns exactly the float coercion of the raw candidate
selected in the specification's fixed priority order, and a failing
coercion yields no PWM value with no error raised. -/
theorem c7_pwm_priority_order (fs : List (String × JVal)) (hne : fs ≠ [])
    (hoem : oemChainOk (JVal.obj fs) = true) :
    pwmFromFan (JVal.obj fs)
      = .ok ((specPwmChoice (JVal.obj fs)).bind pyFloat) := by
  have htr : jTruthy (JVal.obj fs) = true := by
    cases fs with
    | nil => exact absurd rfl hne
    | cons p l => rfl
  obtain ⟨ofs, dfs, hO, hD⟩ := oemChainOk_elim hoem
  unfold pwmFromFan specPwmChoice
  rw [htr]
  simp only [Bool.not_true, Bool.false_eq_true, if_false, jGetD, exc_bind_ok]
  by_cases hA : (jEqStr ((lookupJ fs "ReadingUnits").getD JVal.null) "Percent"
      || jEqStr ((lookupJ fs "ReadingUnits").getD JVal.null) "%") = true
  · rw [hA]
    simp only [if_true, jGetD, exc_bind_ok]
    by_cases hrd : jIsNull ((lookupJ fs "Reading").getD JVal.null) = true
    · simp only [hrd, if_true, Option.isNone_none, jGetD, exc_bind_ok,
        Bool.true_and, Bool.not_true, Bool.false_eq_true, if_false]
      by_cases hdc : jIsNull ((lookupJ fs "DutyCyclePercent").getD JVal.null) = true
      · simp only [hdc, if_true, Option.isNone_none, jGetD, exc_bind_ok,
          Bool.false_eq_true, if_false]
        by_cases hrp : jIsNull ((lookupJ fs "ReadingPercent").getD JVal.null) = true
        · simp only [hrp, if_true, Option.isNone_none, jGetD, exc_bind_ok, hO, hD]
          by_cases hfp : jIsNull ((lookupJ dfs "FanPWM").getD JVal.null) = true
          · simp [hfp]; try rfl
          · simp [hfp]; try rfl
        · simp [hrp]; try rfl
      · simp [hdc]; try rfl
    · simp only [hrd, Bool.false_eq_true, if_false, Option.isNone_some,
        Bool.true_and, Bool.not_false, if_true]
      simp [hrd]; try rfl
  · rw [Bool.not_eq_true] at hA
    rw [hA]
    simp only [Bool.false_eq_true, if_false, Option.isNone_none, if_true,
      jGetD, exc_bind_ok, Bool.false_and]
    by_cases hdc : jIsNull ((lookupJ fs "DutyCyclePercent").getD JVal.null) = true
    · simp only [hdc, if_true, Option.isNone_none, jGetD, exc_bind_ok,
        Bool.false_eq_true, if_false]
      by_cases hrp : jIsNull ((lookupJ fs "ReadingPercent").getD JVal.null) = true
      · simp only [hrp, if_true, Option.isNone_none, jGetD, exc_bind_ok, hO, hD]
        by_cases hfp : jIsNull ((lookupJ dfs "FanPWM").getD JVal.null) = true
        · simp [hfp]; try rfl
        · simp [hfp]; try rfl
      · simp [hrp]; try rfl
    · simp [hdc]; try rfl

/-- Witness for C7 at the specification's two coercion examples:
`Oem.Dell.FanPWM = "42"` (a string) contributes `42.0`, and
`Oem.Dell.FanPWM = "not-a-number"` contributes nothing, without error. -/
theorem c7_pwm_priority_order_witness :
    pwmFromFan fanOem42 = .ok (some (42 : ℚ)) ∧
    pwmFromFan fanOemBad = .ok none := by
  constructor
  · unfold fanOem42
    rw [c7_pwm_priority_order
      [("Oem", .obj [("Dell", .obj [("FanPWM", .str "42")])])]
      (by simp) rfl]
    have h1 : (specPwmChoice (JVal.obj
        [("Oem", .obj [("Dell", .obj [("FanPWM", .str "42")])])])).bind pyFloat
        = some ((1 : ℚ) * ((42 : ℕ) : ℚ) * (10 : ℚ) ^ (0 : ℤ)) := rfl
    rw [h1]
    norm_num
  · unfold fanOemBad
    rw [c7_pwm_priority_order
      [("Oem", .obj [("Dell", .obj [("FanPWM", .str "not-a-number")])])]
      (by simp) rfl]
    rfl

/-! ## C8 -/

theorem tempEntryOk_elim {entries : List (String × JVal)} {k : String}
    (h : tempEntryOk entries k = true) :
    ∃ efs r, lookupJ entries k = some (JVal.obj efs) ∧
      lookupJ efs "Reading" = some r := by
  unfold tempEntryOk at h
  cases hlk : lookupJ entries k with
  | none => simp [hlk] at h
  | some v =>
      cases v with
      | obj efs =>
          simp only [hlk] at h
          cases hr : lookupJ efs "Reading" with
          | none => rw [hr] at h; simp at h
          | some r => exact ⟨efs, r, rfl, hr⟩
      | null => simp [hlk] at h
      | bool b => simp [hlk] at h
      | num q => simp [hlk] at h
      | str s => simp [hlk] at h
      | arr xs => simp [hlk] at h

/-- The thermal loop over well-formed entries appends exactly one sample
per key, `type=<key>`, null reading as NaN. -/
theorem tempLoop_spec (col : Col) (entries : List (String × JVal))
    (l : List String) :
    (∀ k ∈ l, tempEntryOk entries k = true) → ∀ st : St,
    tempLoop col (JVal.obj entries) (l.map JVal.str) st
      = .ok { st with temperature := st.temperature ++ l.map (fun k =>
          (nanOr (summaryReading entries k),
           dictUpdate [("type", JVal.str k)] col.labels)) } := by
  induction l with
  | nil => intro _ st; simp [tempLoop]
  | cons k rest ih =>
      intro hok st
      obtain ⟨efs, r, hlk, hr⟩ := tempEntryOk_elim (hok k (by simp))
      have hread : summaryReading entries k = r := by
        simp [summaryReading, hlk, hr]
      simp only [List.map_cons, tempLoop, jIndexV, hlk, exc_bind_ok, hr]
      rw [ih (fun k' hk' => hok k' (by simp [hk'])) (addTemp (nanOr r)
        (dictUpdate [("type", JVal.str k)] col.labels) st)]
      simp [addTemp, hread]

/-- C8: with the `ThermalSubsystem` locator absent, thermal
reconciliation does nothing at all (no sample, no warning, no fetch);
with it present it fetches the subsystem, follows the `ThermalMetrics`
pointer, and appends exactly one `Temperature` sample per entry of
`TemperatureSummaryCelsius`, labelled `type=<summary name>`, a null
reading becoming NaN, the log untouched. -/
theorem c8_thermal_summary (col : Col) (st : St) :
    (col.urls.thermalSubsystem = none → getTempMetrics col st = .ok st) ∧
    (∀ (u : String) (tme : JVal) (tmu : String)
        (entries : List (String × JVal)),
      col.urls.thermalSubsystem = some u →
      jIndexV (col.fetch u) (.str "ThermalMetrics") = .ok tme →
      jIndexV tme (.str "@odata.id") = .ok (JVal.str tmu) →
      jGetD (col.fetch tmu) "TemperatureSummaryCelsius" (JVal.obj [])
        = .ok (JVal.obj entries) →
      (∀ k ∈ entries.map Prod.fst, tempEntryOk entries k = true) →
      getTempMetrics col st = .ok { st with
        temperature := st.temperature ++ (entries.map Prod.fst).map (fun k =>
          (nanOr (summaryReading entries k),
           dictUpdate [("type", JVal.str k)] col.labels)),
        fetched := st.fetched ++ [u, tmu] }) := by
  constructor
  · intro hnone
    unfold getTempMetrics
    rw [hnone]
    rfl
  · intro u tme tmu entries hu h1 h2 h3 hok
    unfold getTempMetrics
    rw [hu]
    show (connectServer col (.str u) st >>= fun x => _) = _
    rw [show connectServer col (.str u) st = .ok (col.fetch u,
      { st with fetched := st.fetched ++ [u] }) from rfl, exc_bind_ok]
    show (jIndexV (col.fetch u) (.str "ThermalMetrics") >>= fun tme => _) = _
    rw [h1, exc_bind_ok, h2, exc_bind_ok]
    show (connectServer col (.str tmu)
      { st with fetched := st.fetched ++ [u] } >>= fun x => _) = _
    rw [show connectServer col (.str tmu) { st with fetched := st.fetched ++ [u] }
      = .ok (col.fetch tmu, { st with fetched := (st.fetched ++ [u]) ++ [tmu] })
      from rfl, exc_bind_ok]
    show (jGetD (col.fetch tmu) "TemperatureSummaryCelsius" (JVal.obj [])
      >>= fun tm => _) = _
    rw [h3, exc_bind_ok]
    show (jIter (JVal.obj entries) >>= fun ks => _) = _
    rw [show jIter (JVal.obj entries)
      = .ok (entries.map (fun p => JVal.str p.1)) from rfl, exc_bind_ok]
    have hmm : entries.map (fun p => JVal.str p.1)
        = (entries.map Prod.fst).map JVal.str := by
      simp [List.map_map, Function.comp]
    rw [hmm, tempLoop_spec col entries (entries.map Prod.fst) hok]
    simp

/-- Witness for C8 on the specification's end-to-end example: exactly
two samples, `type=CPU` valued 45 and `type=Ambient` valued 22, with no
warning logged. -/
theorem c8_thermal_summary_witness :
    getTempMetrics colG St.init = .ok { St.init with
      temperature :=
        [(SVal.val (JVal.num 45),
            dictUpdate [("type", JVal.str "CPU")] colG.labels),
         (SVal.val (JVal.num 22),
            dictUpdate [("type", JVal.str "Ambient")] colG.labels)],
      fetched := ["ts8", "tm8"] } :=
  (c8_thermal_summary colG St.init).2 "ts8"
    (JVal.obj [("@odata.id", JVal.str "tm8")]) "tm8"
    [("CPU", .obj [("Reading", .num 45)]),
     ("Ambient", .obj [("Reading", .num 22)])]
    rfl rfl rfl rfl (by decide)

/-! ## C9 -/

theorem lookupJ_some_any {fs : Labels} {k : String} {v : JVal}
    (h : lookupJ fs k = some v) : (fs.any fun p => p.1 = k) = true := by
  cases ha : (fs.any fun p => p.1 = k) with
  | true => rfl
  | false => rw [(lookupJ_none_iff fs k).2 ha] at h; cases h

/-- C9: for the PowerSubsystem direct fields and the per-supply Metrics
readings alike, a field absent from the resource produces no sample at
all, while a present field whose (reading) value is null produces
exactly one NaN-valued sample under the very same labels a numeric value
would receive. -/
theorem c9_null_vs_absent (col : Col) (st : St) :
    (∀ fs metric, lookupJ fs metric = none →
      emitDirectField col (JVal.obj fs) metric st = .ok st) ∧
    (∀ fs metric, lookupJ fs metric = some JVal.null →
      emitDirectField col (JVal.obj fs) metric st
        = .ok (addPower SVal.nan
            (dictUpdate [("type", JVal.str metric)] col.labels) st)) ∧
    (∀ fs metric q, lookupJ fs metric = some (JVal.num q) →
      emitDirectField col (JVal.obj fs) metric st
        = .ok (addPower (SVal.val (JVal.num q))
            (dictUpdate [("type", JVal.str metric)] col.labels) st)) ∧
    (∀ psl fs metric, lookupJ fs metric = none →
      emitSupplyMetric psl (JVal.obj fs) metric st = .ok st) ∧
    (∀ psl fs metric efs, lookupJ fs metric = some (JVal.obj efs) →
      lookupJ efs "Reading" = some JVal.null →
      emitSupplyMetric psl (JVal.obj fs) metric st
        = .ok (addPower SVal.nan
            (dictUpdate [("type", JVal.str metric)] psl) st)) ∧
    (∀ psl fs metric efs q, lookupJ fs metric = some (JVal.obj efs) →
      lookupJ efs "Reading" = some (JVal.num q) →
      emitSupplyMetric psl (JVal.obj fs) metric st
        = .ok (addPower (SVal.val (JVal.num q))
            (dictUpdate [("type", JVal.str metric)] psl) st)) := by
  refine ⟨?_, ?_, ?_, ?_, ?_, ?_⟩
  · intro fs metric hlk
    have hany := (lookupJ_none_iff fs metric).1 hlk
    unfold emitDirectField
    show (jContains (JVal.obj fs) metric >>= fun present => _) = _
    rw [show jContains (JVal.obj fs) metric
      = .ok (fs.any fun p => p.1 = metric) from rfl, exc_bind_ok, hany]
    rfl
  · intro fs metric hlk
    have hany := lookupJ_some_any hlk
    unfold emitDirectField
    show (jContains (JVal.obj fs) metric >>= fun present => _) = _
    rw [show jContains (JVal.obj fs) metric
      = .ok (fs.any fun p => p.1 = metric) from rfl, exc_bind_ok, hany]
    show (jIndexV (JVal.obj fs) (.str metric) >>= fun v => _) = _
    rw [show jIndexV (JVal.obj fs) (JVal.str metric) = .ok JVal.null from
      by simp [jIndexV, hlk], exc_bind_ok]
    rfl
  · intro fs metric q hlk
    have hany := lookupJ_some_any hlk
    unfold emitDirectField
    show (jContains (JVal.obj fs) metric >>= fun present => _) = _
    rw [show jContains (JVal.obj fs) metric
      = .ok (fs.any fun p => p.1 = metric) from rfl, exc_bind_ok, hany]
    show (jIndexV (JVal.obj fs) (.str metric) >>= fun v => _) = _
    rw [show jIndexV (JVal.obj fs) (JVal.str metric) = .ok (JVal.num q) from
      by simp [jIndexV, hlk], exc_bind_ok]
    rfl
  · intro psl fs metric hlk
    have hany := (lookupJ_none_iff fs metric).1 hlk
    unfold emitSupplyMetric
    show (jContains (JVal.obj fs) metric >>= fun present => _) = _
    rw [show jContains (JVal.obj fs) metric
      = .ok (fs.any fun p => p.1 = metric) from rfl, exc_bind_ok, hany]
    rfl
  · intro psl fs metric efs hlk hr
    have hany := lookupJ_some_any hlk
    unfold emitSupplyMetric
    show (jContains (JVal.obj fs) metric >>= fun present => _) = _
    rw [show jContains (JVal.obj fs) metric
      = .ok (fs.any fun p => p.1 = metric) from rfl, exc_bind_ok, hany]
    show (jIndexV (JVal.obj fs) (.str metric) >>= fun entry => _) = _
    rw [show jIndexV (JVal.obj fs) (JVal.str metric) = .ok (JVal.obj efs) from
      by simp [jIndexV, hlk], exc_bind_ok]
    show (jIndexV (JVal.obj efs) (.str "Reading") >>= fun reading => _) = _
    rw [show jIndexV (JVal.obj efs) (JVal.str "Reading") = .ok JVal.null from
      by simp [jIndexV, hr], exc_bind_ok]
    rfl
  · intro psl fs metric efs q hlk hr
    have hany := lookupJ_some_any hlk
    unfold emitSupplyMetric
    show (jContains (JVal.obj fs) metric >>= fun present => _) = _
    rw [show jContains (JVal.obj fs) metric
      = .ok (fs.any fun p => p.1 = metric) from rfl, exc_bind_ok, hany]
    show (jIndexV (JVal.obj fs) (.str metric) >>= fun entry => _) = _
    rw [show jIndexV (JVal.obj fs) (JVal.str metric) = .ok (JVal.obj efs) from
      by simp [jIndexV, hlk], exc_bind_ok]
    show (jIndexV (JVal.obj efs) (.str "Reading") >>= fun reading => _) = _
    rw [show jIndexV (JVal.obj efs) (JVal.str "Reading") = .ok (JVal.num q) from
      by simp [jIndexV, hr], exc_bind_ok]
    rfl

/-- Witness for C9 at concrete fields: `CapacityWatts: null` yields one
NaN sample while an absent `Allocation` yields none; a supply metric
with `Reading: null` yields one NaN sample and an absent metric none;
numeric values flow through under the same labels. -/
theorem c9_null_vs_absent_witness :
    emitDirectField colNone (JVal.obj [("CapacityWatts", JVal.null)])
      "Allocation" St.init = .ok St.init ∧
    emitDirectField colNone (JVal.obj [("CapacityWatts", JVal.null)])
      "CapacityWatts" St.init
      = .ok (addPower SVal.nan
          (dictUpdate [("type", JVal.str "CapacityWatts")] colNone.labels)
          St.init) ∧
    emitDirectField colNone (JVal.obj [("Allocation", JVal.num 7)])
      "Allocation" St.init
      = .ok (addPower (SVal.val (JVal.num 7))
          (dictUpdate [("type", JVal.str "Allocation")] colNone.labels)
          St.init) ∧
    emitSupplyMetric [("Name", JVal.str "P")]
      (JVal.obj [("PowerInputWatts", JVal.obj [("Reading", JVal.null)])])
      "PowerOutputWatts" St.init = .ok St.init ∧
    emitSupplyMetric [("Name", JVal.str "P")]
      (JVal.obj [("PowerInputWatts", JVal.obj [("Reading", JVal.null)])])
      "PowerInputWatts" St.init
      = .ok (addPower SVal.nan
          (dictUpdate [("type", JVal.str "PowerInputWatts")]
            [("Name", JVal.str "P")]) St.init) ∧
    emitSupplyMetric [("Name", JVal.str "P")]
      (JVal.obj [("PowerInputWatts", JVal.obj [("Reading", JVal.num 9)])])
      "PowerInputWatts" St.init
      = .ok (addPower (SVal.val (JVal.num 9))
          (dictUpdate [("type", JVal.str "PowerInputWatts")]
            [("Name", JVal.str "P")]) St.init) := by
  have h := c9_null_vs_absent colNone St.init
  exact ⟨h.1 _ _ rfl, h.2.1 _ _ rfl, h.2.2.1 _ _ 7 rfl,
    h.2.2.2.1 _ _ _ rfl, h.2.2.2.2.1 _ _ _ _ rfl rfl,
    h.2.2.2.2.2 _ _ _ _ 9 rfl rfl⟩

/-! ## C10: base-label invariant infrastructure -/

theorem keys_dictSet_map (d : Labels) (k : String) (v : JVal) :
    (d.map (fun p => if p.1 = k then (k, v) else p)).map Prod.fst
      = d.map Prod.fst := by
  induction d with
  | nil => rfl
  | cons p rest ih =>
      by_cases hp : p.1 = k <;> simp [hp, ih]

theorem keysNodup_dictSet (d : Labels) (k : String) (v : JVal)
    (h : keysNodup d) : keysNodup (dictSet d k v) := by
  unfold dictSet
  by_cases ha : d.any (fun p => p.1 = k)
  · unfold keysNodup
    simp only [ha, if_true]
    rw [keys_dictSet_map]
    exact h
  · have hk : lookupJ d k = none := (lookupJ_none_iff d k).2
      (by revert ha; cases d.any (fun p => p.1 = k) <;> simp)
    have hnk : k ∉ d.map Prod.fst := not_mem_keys_of_lookupJ_none hk
    unfold keysNodup at h ⊢
    simp only [ha, Bool.false_eq_true, if_false, List.map_append]
    refine List.Nodup.append h (by simp) ?_
    intro x hx hsing
    simp at hsing
    subst hsing
    exact hnk hx

theorem keysNodup_dictUpdate (other : Labels) :
    ∀ d, keysNodup d → keysNodup (dictUpdate d other) := by
  induction other with
  | nil => intro d h; exact h
  | cons q rest ih =>
      intro d h
      exact ih (dictSet d q.1 q.2) (keysNodup_dictSet d q.1 q.2 h)

theorem lookupJ_dictUpdate_mem (M : Labels) :
    keysNodup M → ∀ (d : Labels) (k : String), k ∈ M.map Prod.fst →
      lookupJ (dictUpdate d M) k = lookupJ M k := by
  induction M with
  | nil => intro _ d k hk; simp at hk
  | cons q rest ih =>
      intro hnd d k hk
      have hstep : dictUpdate d (q :: rest)
        = dictUpdate (dictSet d q.1 q.2) rest := rfl
      rw [hstep]
      unfold keysNodup at hnd
      simp only [List.map_cons, List.nodup_cons] at hnd
      rcases List.mem_cons.1 hk with hkq | hkr
      · subst hkq
        rw [lookupJ_dictUpdate_not_mem rest _ _ hnd.1, lookupJ_dictSet_self]
        simp [lookupJ]
      · rw [ih hnd.2 _ k hkr]
        have hne : ¬ q.1 = k := fun h => hnd.1 (h ▸ hkr)
        simp [lookupJ, hne]

theorem lookupJ_mem_some (l : Labels) (p : String × JVal) (hp : p ∈ l) :
    ∃ v, lookupJ l p.1 = some v := by
  induction l with
  | nil => cases hp
  | cons q rest ih =>
      by_cases hq : q.1 = p.1
      · exact ⟨q.2, by simp [lookupJ, hq]⟩
      · rcases List.mem_cons.1 hp with h | h
        · exact absurd (congrArg Prod.fst h).symm hq
        · obtain ⟨v, hv⟩ := ih h
          exact ⟨v, by simp [lookupJ, hq, hv]⟩

/-- Merging the base dict last puts every base pair in charge. -/
theorem baseLe_dictUpdate_self (base : Labels) (hnd : keysNodup base)
    (d : Labels) : baseLe base (dictUpdate d base) := by
  intro p hp
  exact lookupJ_dictUpdate_mem base hnd d p.1 (List.mem_map_of_mem Prod.fst hp)

/-- Updating onto a dict that already honours the base keeps honouring
it (the per-sample `type` key is set before the merged supply labels). -/
theorem baseLe_dictUpdate_of (base M : Labels) (hM : keysNodup M)
    (h : baseLe base M) (d : Labels) : baseLe base (dictUpdate d M) := by
  intro p hp
  have h1 := h p hp
  obtain ⟨v, hv⟩ := lookupJ_mem_some base p hp
  have hmem : p.1 ∈ M.map Prod.fst :=
    mem_keys_of_lookupJ_some (h1.trans hv)
  rw [lookupJ_dictUpdate_mem M hM d p.1 hmem, h1]

theorem stBaseOk_addPower {base : Labels} {st : St} {v : SVal} {l : Labels}
    (h : stBaseOk base st) (hl : baseLe base l) :
    stBaseOk base (addPower v l st) := by
  obtain ⟨h1, h2, h3, h4⟩ := h
  refine ⟨?_, h2, h3, h4⟩
  intro s hs
  rcases List.mem_append.1 hs with hs | hs
  · exact h1 s hs
  · simp at hs
    subst hs
    exact hl

theorem stBaseOk_addTemp {base : Labels} {st : St} {v : SVal} {l : Labels}
    (h : stBaseOk base st) (hl : baseLe base l) :
    stBaseOk base (addTemp v l st) := by
  obtain ⟨h1, h2, h3, h4⟩ := h
  refine ⟨h1, ?_, h3, h4⟩
  intro s hs
  rcases List.mem_append.1 hs with hs | hs
  · exact h2 s hs
  · simp at hs
    subst hs
    exact hl

theorem stBaseOk_addFanRPM {base : Labels} {st : St} {v : SVal} {l : Labels}
    (h : stBaseOk base st) (hl : baseLe base l) :
    stBaseOk base (addFanRPM v l st) := by
  obtain ⟨h1, h2, h3, h4⟩ := h
  refine ⟨h1, h2, ?_, h4⟩
  intro s hs
  rcases List.mem_append.1 hs with hs | hs
  · exact h3 s hs
  · simp at hs
    subst hs
    exact hl

theorem stBaseOk_addFanPWM {base : Labels} {st : St} {v : SVal} {l : Labels}
    (h : stBaseOk base st) (hl : baseLe base l) :
    stBaseOk base (addFanPWM v l st) := by
  obtain ⟨h1, h2, h3, h4⟩ := h
  refine ⟨h1, h2, h3, ?_⟩
  intro s hs
  rcases List.mem_append.1 hs with hs | hs
  · exact h4 s hs
  · simp at hs
    subst hs
    exact hl

theorem stBaseOk_warn {base : Labels} {col : Col} {k : WarnKind} {st : St}
    (h : stBaseOk base st) : stBaseOk base (warn col k st) := h

theorem stBaseOk_connectServer {base : Labels} {col : Col} {u : JVal}
    {st : St} {d : JVal} {st1 : St}
    (h : connectServer col u st = .ok (d, st1)) (hst : stBaseOk base st) :
    stBaseOk base st1 := by
  cases u with
  | str s =>
      simp [connectServer] at h
      rw [← h.2]
      exact hst
  | null => simp [connectServer] at h
  | bool b => simp [connectServer] at h
  | num q => simp [connectServer] at h
  | arr xs => simp [connectServer] at h
  | obj fs => simp [connectServer] at h

theorem emitSubKeys_baseOk (col : Col) (hnd : keysNodup col.labels)
    (fs : List (String × JVal)) (ks : List String) :
    ∀ st, stBaseOk col.labels st →
      stBaseOk col.labels (emitSubKeys col fs ks st) := by
  induction ks with
  | nil => intro st h; exact h
  | cons k rest ih =>
      intro st h
      exact ih _ (stBaseOk_addPower h (baseLe_dictUpdate_self col.labels hnd _))

theorem emitDirectField_baseOk (col : Col) (hnd : keysNodup col.labels)
    (ps : JVal) (metric : String) (st st' : St)
    (h : emitDirectField col ps metric st = .ok st')
    (hst : stBaseOk col.labels st) : stBaseOk col.labels st' := by
  unfold emitDirectField at h
  obtain ⟨present, h1, h⟩ := exc_bind_eq_ok h
  cases present with
  | false =>
      replace h : Except.ok st = .ok st' := h
      cases h
      exact hst
  | true =>
      obtain ⟨v, h2, h⟩ := exc_bind_eq_ok h
      have haux : ∀ vv : JVal, (Except.ok (addPower (nanOr vv)
          (dictUpdate [("type", JVal.str metric)] col.labels) st)
            : Except PyErr St) = Except.ok st' → stBaseOk col.labels st' := by
        intro vv hh
        cases hh
        exact stBaseOk_addPower hst (baseLe_dictUpdate_self col.labels hnd _)
      cases v with
      | obj fs2 =>
          replace h : Except.ok (emitSubKeys col fs2 (fs2.map Prod.fst) st)
            = .ok st' := h
          cases h
          exact emitSubKeys_baseOk col hnd fs2 _ st hst
      | null => exact haux JVal.null h
      | bool b => exact haux (JVal.bool b) h
      | num q => exact haux (JVal.num q) h
      | str s => exact haux (JVal.str s) h
      | arr xs => exact haux (JVal.arr xs) h

theorem emitDirectFields_baseOk (col : Col) (hnd : keysNodup col.labels)
    (ps : JVal) (ms : List String) :
    ∀ st st', emitDirectFields col ps ms st = .ok st' →
      stBaseOk col.labels st → stBaseOk col.labels st' := by
  induction ms with
  | nil =>
      intro st st' h hst
      cases h
      exact hst
  | cons m rest ih =>
      intro st st' h hst
      unfold emitDirectFields at h
      obtain ⟨st1, h1, h⟩ := exc_bind_eq_ok h
      exact ih st1 st' h (emitDirectField_baseOk col hnd ps m st st1 h1 hst)

theorem psuFieldLabels_nodup (psd : JVal) (l : List String) :
    ∀ acc res, keysNodup acc → psuFieldLabels psd l acc = .ok res →
      keysNodup res := by
  induction l with
  | nil =>
      intro acc res hacc h
      cases h
      exact hacc
  | cons f rest ih =>
      intro acc res hacc h
      unfold psuFieldLabels at h
      obtain ⟨v, h1, h⟩ := exc_bind_eq_ok h
      exact ih _ _ (keysNodup_dictUpdate [(f, v)] acc hacc) h

theorem emitSupplyMetric_baseOk {base psl : Labels} (hpsl : keysNodup psl)
    (hle : baseLe base psl) (psm : JVal) (metric : String) (st st' : St)
    (h : emitSupplyMetric psl psm metric st = .ok st')
    (hst : stBaseOk base st) : stBaseOk base st' := by
  unfold emitSupplyMetric at h
  obtain ⟨present, h1, h⟩ := exc_bind_eq_ok h
  cases present with
  | false =>
      replace h : Except.ok st = .ok st' := h
      cases h
      exact hst
  | true =>
      obtain ⟨entry, h2, h⟩ := exc_bind_eq_ok h
      obtain ⟨reading, h3, h⟩ := exc_bind_eq_ok h
      replace h : Except.ok (addPower (nanOr reading)
        (dictUpdate [("type", JVal.str metric)] psl) st) = .ok st' := h
      cases h
      exact stBaseOk_addPower hst (baseLe_dictUpdate_of base psl hpsl hle _)

theorem emitSupplyMetrics_baseOk {base psl : Labels} (hpsl : keysNodup psl)
    (hle : baseLe base psl) (psm : JVal) (ms : List String) :
    ∀ st st', emitSupplyMetrics psl psm ms st = .ok st' →
      stBaseOk base st → stBaseOk base st' := by
  induction ms with
  | nil =>
      intro st st' h hst
      cases h
      exact hst
  | cons m rest ih =>
      intro st st' h hst
      unfold emitSupplyMetrics at h
      obtain ⟨st1, h1, h⟩ := exc_bind_eq_ok h
      exact ih st1 st' h
        (emitSupplyMetric_baseOk hpsl hle psm m st st1 h1 hst)

theorem getPowerSupplyMetrics_baseOk (col : Col) (hnd : keysNodup col.labels)
    (psRef : JVal) (st : St) (b : Bool) (st' : St)
    (h : getPowerSupplyMetrics col psRef st = .ok (b, st'))
    (hst : stBaseOk col.labels st) : stBaseOk col.labels st' := by
  unfold getPowerSupplyMetrics at h
  obtain ⟨oid, h1, h⟩ := exc_bind_eq_ok h
  obtain ⟨psdp, h2, h⟩ := exc_bind_eq_ok h
  obtain ⟨psd, st1⟩ := psdp
  have hst1 : stBaseOk col.labels st1 := stBaseOk_connectServer h2 hst
  obtain ⟨hasM, h3, h⟩ := exc_bind_eq_ok h
  cases hasM with
  | false =>
      obtain ⟨nm, h4, h⟩ := exc_bind_eq_ok h
      replace h : Except.ok (true, warn col (.noPSUMetrics nm) st1)
        = .ok (b, st') := h
      cases h
      exact stBaseOk_warn hst1
  | true =>
      obtain ⟨psl0, h4, h⟩ := exc_bind_eq_ok h
      have hn0 : keysNodup psl0 :=
        psuFieldLabels_nodup psd _ [] psl0 (by simp [keysNodup]) h4
      have hple : baseLe col.labels (dictUpdate psl0 col.labels) :=
        baseLe_dictUpdate_self col.labels hnd psl0
      have hpn : keysNodup (dictUpdate psl0 col.labels) :=
        keysNodup_dictUpdate col.labels psl0 hn0
      obtain ⟨mE, h5, h⟩ := exc_bind_eq_ok h
      obtain ⟨mU, h6, h⟩ := exc_bind_eq_ok h
      obtain ⟨psmp, h7, h⟩ := exc_bind_eq_ok h
      obtain ⟨psm, st2⟩ := psmp
      have hst2 : stBaseOk col.labels st2 := stBaseOk_connectServer h7 hst1
      obtain ⟨st3, h8, h⟩ := exc_bind_eq_ok h
      replace h : Except.ok ((false : Bool), st3) = .ok (b, st') := h
      cases h
      exact emitSupplyMetrics_baseOk hpn hple psm _ st2 st' h8 hst2

theorem psuLoop_baseOk (col : Col) (hnd : keysNodup col.labels)
    (ms : List JVal) :
    ∀ no st b st', psuLoop col ms no st = .ok (b, st') →
      stBaseOk col.labels st → stBaseOk col.labels st' := by
  induction ms with
  | nil =>
      intro no st b st' h hst
      cases h
      exact hst
  | cons m rest ih =>
      intro no st b st' h hst
      unfold psuLoop at h
      obtain ⟨p, h1, h⟩ := exc_bind_eq_ok h
      obtain ⟨no1, st1⟩ := p
      exact ih no1 st1 b st' h
        (getPowerSupplyMetrics_baseOk col hnd m st no1 st1 h1 hst)

theorem getPowerSubsystemMetrics_baseOk (col : Col)
    (hnd : keysNodup col.labels) (u : String) (st : St) (b : Bool) (st' : St)
    (h : getPowerSubsystemMetrics col u st = .ok (b, st'))
    (hst : stBaseOk col.labels st) : stBaseOk col.labels st' := by
  unfold getPowerSubsystemMetrics at h
  obtain ⟨psp, h1, h⟩ := exc_bind_eq_ok h
  obtain ⟨psdoc, st1⟩ := psp
  have hst1 : stBaseOk col.labels st1 := stBaseOk_connectServer h1 hst
  obtain ⟨st2, h2, h⟩ := exc_bind_eq_ok h
  have hst2 : stBaseOk col.labels st2 :=
    emitDirectFields_baseOk col hnd psdoc _ st1 st2 h2 hst1
  obtain ⟨psObj, h3, h⟩ := exc_bind_eq_ok h
  obtain ⟨pu, h4, h⟩ := exc_bind_eq_ok h
  cases hT : jTruthy pu with
  | false =>
      rw [hT] at h
      replace h : Except.ok (true, warn col .noPowerSuppliesUrl st2)
        = .ok (b, st') := h
      cases h
      exact stBaseOk_warn hst2
  | true =>
      rw [hT] at h
      obtain ⟨cp, h5, h⟩ := exc_bind_eq_ok h
      obtain ⟨coll, st3⟩ := cp
      have hst3 : stBaseOk col.labels st3 := stBaseOk_connectServer h5 hst2
      obtain ⟨members, h6, h⟩ := exc_bind_eq_ok h
      obtain ⟨ms, h7, h⟩ := exc_bind_eq_ok h
      exact psuLoop_baseOk col hnd ms true st3 b st' h hst3

theorem oldPsuMetricLoop_baseOk (col : Col) (hnd : keysNodup col.labels)
    (psu psuName psuModel : JVal) (ms : List String) :
    ∀ no st b st',
      oldPsuMetricLoop col psu psuName psuModel ms no st = .ok (b, st') →
      stBaseOk col.labels st → stBaseOk col.labels st' := by
  induction ms with
  | nil =>
      intro no st b st' h hst
      cases h
      exact hst
  | cons m rest ih =>
      intro no st b st' h hst
      unfold oldPsuMetricLoop at h
      obtain ⟨present, h1, h⟩ := exc_bind_eq_ok h
      cases present with
      | false => exact ih no st b st' h hst
      | true =>
          obtain ⟨v, h2, h⟩ := exc_bind_eq_ok h
          exact ih false _ b st' h
            (stBaseOk_addPower hst (baseLe_dictUpdate_self col.labels hnd _))

theorem oldPsuLoop_baseOk (col : Col) (hnd : keysNodup col.labels)
    (psus : List JVal) :
    ∀ no st b st', oldPsuLoop col psus no st = .ok (b, st') →
      stBaseOk col.labels st → stBaseOk col.labels st' := by
  induction psus with
  | nil =>
      intro no st b st' h hst
      cases h
      exact hst
  | cons psu rest ih =>
      intro no st b st' h hst
      unfold oldPsuLoop at h
      obtain ⟨nmRaw, h1, h⟩ := exc_bind_eq_ok h
      obtain ⟨mdRaw, h2, h⟩ := exc_bind_eq_ok h
      obtain ⟨p, h3, h⟩ := exc_bind_eq_ok h
      obtain ⟨no1, st1⟩ := p
      exact ih no1 st1 b st' h
        (oldPsuMetricLoop_baseOk col hnd psu _ _ _ no st no1 st1 h3 hst)

theorem getOldPowerMetrics_baseOk (col : Col) (hnd : keysNodup col.labels)
    (u : String) (st : St) (b : Bool) (st' : St)
    (h : getOldPowerMetrics col u st = .ok (b, st'))
    (hst : stBaseOk col.labels st) : stBaseOk col.labels st' := by
  unfold getOldPowerMetrics at h
  obtain ⟨pp, h1, h⟩ := exc_bind_eq_ok h
  obtain ⟨powerData, st1⟩ := pp
  have hst1 : stBaseOk col.labels st1 := stBaseOk_connectServer h1 hst
  replace h : (if (!jTruthy powerData) = true
      then (pure (true, st1) : Except PyErr (Bool × St))
      else jIndexV powerData (JVal.str "PowerSupplies") >>= fun psusV =>
        jIter psusV >>= fun psus => oldPsuLoop col psus true st1)
      = Except.ok (b, st') := h
  cases hT : jTruthy powerData with
  | false =>
      rw [hT] at h
      replace h : Except.ok (true, st1) = .ok (b, st') := h
      cases h
      exact hst1
  | true =>
      rw [hT] at h
      simp only [Bool.not_true, Bool.false_eq_true, if_false] at h
      obtain ⟨psusV, h2, h⟩ := exc_bind_eq_ok h
      obtain ⟨psus, h3, h⟩ := exc_bind_eq_ok h
      exact oldPsuLoop_baseOk col hnd psus true st1 b st' h hst1

theorem getPowerMetrics_baseOk (col : Col) (hnd : keysNodup col.labels)
    (st st' : St) (h : getPowerMetrics col st = .ok st')
    (hst : stBaseOk col.labels st) : stBaseOk col.labels st' := by
  unfold getPowerMetrics at h
  obtain ⟨p1, hA, h⟩ := exc_bind_eq_ok h
  obtain ⟨no1, st1⟩ := p1
  have hst1 : stBaseOk col.labels st1 := by
    cases hps : col.urls.powerSubsystem with
    | some u =>
        rw [hps] at hA
        exact getPowerSubsystemMetrics_baseOk col hnd u st no1 st1 hA hst
    | none =>
        rw [hps] at hA
        cases hA
        exact hst
  obtain ⟨st2, hB, h⟩ := exc_bind_eq_ok h
  have hst2 : stBaseOk col.labels st2 := by
    cases hpw : col.urls.power with
    | some u =>
        rw [hpw] at hB
        cases no1 with
        | true =>
            obtain ⟨p2, hC, hB⟩ := exc_bind_eq_ok hB
            obtain ⟨b2, s2⟩ := p2
            replace hB : Except.ok s2 = .ok st2 := hB
            cases hB
            exact getOldPowerMetrics_baseOk col hnd u st1 b2 st2 hC hst1
        | false =>
            replace hB : Except.ok st1 = .ok st2 := hB
            cases hB
            exact hst1
    | none =>
        rw [hpw] at hB
        cases hB
        exact hst1
  cases no1 with
  | true =>
      replace h : Except.ok (warn col .noPowerUrl st2) = .ok st' := h
      cases h
      exact stBaseOk_warn hst2
  | false =>
      replace h : Except.ok st2 = .ok st' := h
      cases h
      exact hst2

theorem tempLoop_baseOk (col : Col) (hnd : keysNodup col.labels) (tm : JVal)
    (ks : List JVal) : ∀ st st', tempLoop col tm ks st = .ok st' →
      stBaseOk col.labels st → stBaseOk col.labels st' := by
  induction ks with
  | nil =>
      intro st st' h hst
      cases h
      exact hst
  | cons k rest ih =>
      intro st st' h hst
      unfold tempLoop at h
      obtain ⟨entry, h1, h⟩ := exc_bind_eq_ok h
      obtain ⟨reading, h2, h⟩ := exc_bind_eq_ok h
      exact ih _ st' h
        (stBaseOk_addTemp hst (baseLe_dictUpdate_self col.labels hnd _))

theorem getTempMetrics_baseOk (col : Col) (hnd : keysNodup col.labels)
    (st st' : St) (h : getTempMetrics col st = .ok st')
    (hst : stBaseOk col.labels st) : stBaseOk col.labels st' := by
  unfold getTempMetrics at h
  cases hts : col.urls.thermalSubsystem with
  | none =>
      rw [hts] at h
      cases h
      exact hst
  | some u =>
      rw [hts] at h
      obtain ⟨tp, h1, h⟩ := exc_bind_eq_ok h
      obtain ⟨ts, st1⟩ := tp
      have hst1 : stBaseOk col.labels st1 := stBaseOk_connectServer h1 hst
      obtain ⟨tmE, h2, h⟩ := exc_bind_eq_ok h
      obtain ⟨tmU, h3, h⟩ := exc_bind_eq_ok h
      obtain ⟨rp, h4, h⟩ := exc_bind_eq_ok h
      obtain ⟨result, st2⟩ := rp
      have hst2 : stBaseOk col.labels st2 := stBaseOk_connectServer h4 hst1
      obtain ⟨tm, h5, h⟩ := exc_bind_eq_ok h
      obtain ⟨ks, h6, h⟩ := exc_bind_eq_ok h
      exact tempLoop_baseOk col hnd tm ks st2 st' h hst2

theorem fanMemberLoop_baseOk (col : Col) (ms : List JVal) :
    ∀ rpm pwm st r p st',
      fanMemberLoop col ms rpm pwm st = .ok (r, p, st') →
      stBaseOk col.labels st → stBaseOk col.labels st' := by
  induction ms with
  | nil =>
      intro rpm pwm st r p st' h hst
      cases h
      exact hst
  | cons m rest ih =>
      intro rpm pwm st r p st' h hst
      unfold fanMemberLoop at h
      obtain ⟨oid, h1, h⟩ := exc_bind_eq_ok h
      obtain ⟨fp, h2, h⟩ := exc_bind_eq_ok h
      obtain ⟨fanData, st1⟩ := fp
      obtain ⟨ro, h3, h⟩ := exc_bind_eq_ok h
      obtain ⟨po, h4, h⟩ := exc_bind_eq_ok h
      exact ih _ _ st1 r p st' h (stBaseOk_connectServer h2 hst)

theorem modernFanValues_baseOk (col : Col) (st : St)
    (r : List JVal) (p : List ℚ) (st' : St)
    (h : modernFanValues col st = .ok (r, p, st'))
    (hst : stBaseOk col.labels st) : stBaseOk col.labels st' := by
  unfold modernFanValues at h
  cases hts : col.urls.thermalSubsystem with
  | none =>
      rw [hts] at h
      cases h
      exact hst
  | some u =>
      rw [hts] at h
      obtain ⟨tp, h1, h⟩ := exc_bind_eq_ok h
      obtain ⟨ts, st1⟩ := tp
      have hst1 : stBaseOk col.labels st1 := stBaseOk_connectServer h1 hst
      obtain ⟨fobj, h2, h⟩ := exc_bind_eq_ok h
      obtain ⟨fansUrl, h3, h⟩ := exc_bind_eq_ok h
      cases hT : jTruthy fansUrl with
      | false =>
          rw [hT] at h
          replace h : Except.ok (([] : List JVal), ([] : List ℚ), st1)
            = .ok (r, p, st') := h
          cases h
          exact hst1
      | true =>
          rw [hT] at h
          obtain ⟨fp, h4, h⟩ := exc_bind_eq_ok h
          obtain ⟨fcoll, st2⟩ := fp
          have hst2 : stBaseOk col.labels st2 := stBaseOk_connectServer h4 hst1
          obtain ⟨members, h5, h⟩ := exc_bind_eq_ok h
          obtain ⟨ms, h6, h⟩ := exc_bind_eq_ok h
          exact fanMemberLoop_baseOk col ms [] [] st2 r p st' h hst2

theorem oldFanPhase_baseOk (col : Col) (u : String) (rpm : List JVal)
    (pwm : List ℚ) (st : St) (r : List JVal) (p : List ℚ) (st' : St)
    (h : oldFanPhase col u rpm pwm st = .ok (r, p, st'))
    (hst : stBaseOk col.labels st) : stBaseOk col.labels st' := by
  unfold oldFanPhase at h
  obtain ⟨tp, h1, h⟩ := exc_bind_eq_ok h
  obtain ⟨thermal, st1⟩ := tp
  obtain ⟨fansV, h2, h⟩ := exc_bind_eq_ok h
  obtain ⟨fans, h3, h⟩ := exc_bind_eq_ok h
  obtain ⟨rp2, h4, h⟩ := exc_bind_eq_ok h
  obtain ⟨r2, p2⟩ := rp2
  replace h : Except.ok (r2, p2, st1) = .ok (r, p, st') := h
  cases h
  exact stBaseOk_connectServer h1 hst

theorem collectFanValues_baseOk (col : Col) (st : St)
    (r : List JVal) (p : List ℚ) (st' : St)
    (h : collectFanValues col st = .ok (r, p, st'))
    (hst : stBaseOk col.labels st) : stBaseOk col.labels st' := by
  unfold collectFanValues at h
  obtain ⟨mp, h1, h⟩ := exc_bind_eq_ok h
  obtain ⟨rpm, pwm, st1⟩ := mp
  have hst1 : stBaseOk col.labels st1 :=
    modernFanValues_baseOk col st rpm pwm st1 h1 hst
  cases rpm with
  | cons a l =>
      replace h : Except.ok ((a :: l), pwm, st1) = .ok (r, p, st') := h
      cases h
      exact hst1
  | nil =>
      cases hth : col.urls.thermal with
      | some u =>
          rw [hth] at h
          exact oldFanPhase_baseOk col u [] pwm st1 r p st' h hst1
      | none =>
          rw [hth] at h
          replace h : Except.ok (([] : List JVal), pwm, st1)
            = .ok (r, p, st') := h
          cases h
          exact hst1

theorem emitFanRPMStage_baseOk (col : Col) (hnd : keysNodup col.labels)
    (rpm : List JVal) (st st' : St)
    (h : emitFanRPMStage col rpm st = .ok st')
    (hst : stBaseOk col.labels st) : stBaseOk col.labels st' := by
  cases rpm with
  | nil =>
      rw [emitFanRPMStage_nil] at h
      cases h
      exact stBaseOk_warn hst
  | cons a l =>
      rw [emitFanRPMStage_cons] at h
      obtain ⟨s0, h1, h⟩ := exc_bind_eq_ok h
      replace h : Except.ok (addFanRPM (SVal.val (JVal.num
          (s0 / (((a :: l) : List JVal).length : ℚ))))
        (dictUpdate [("type", JVal.str "average")] col.labels) st)
          = .ok st' := h
      cases h
      exact stBaseOk_addFanRPM hst (baseLe_dictUpdate_self col.labels hnd _)

theorem emitFanPWMStage_baseOk (col : Col) (hnd : keysNodup col.labels)
    (pwm : List ℚ) (st st' : St)
    (h : emitFanPWMStage col pwm st = .ok st')
    (hst : stBaseOk col.labels st) : stBaseOk col.labels st' := by
  cases pwm with
  | nil =>
      rw [emitFanPWMStage_nil] at h
      cases h
      exact stBaseOk_warn hst
  | cons b m =>
      rw [emitFanPWMStage_cons] at h
      cases h
      exact stBaseOk_addFanPWM hst (baseLe_dictUpdate_self col.labels hnd _)

theorem getFanMetrics_baseOk (col : Col) (hnd : keysNodup col.labels)
    (st st' : St) (h : getFanMetrics col st = .ok st')
    (hst : stBaseOk col.labels st) : stBaseOk col.labels st' := by
  unfold getFanMetrics at h
  obtain ⟨mp, h1, h⟩ := exc_bind_eq_ok h
  obtain ⟨rpm, pwm, st1⟩ := mp
  have hst1 : stBaseOk col.labels st1 :=
    collectFanValues_baseOk col st rpm pwm st1 h1 hst
  replace h : emitFanAverages col rpm pwm st1 = .ok st' := h
  unfold emitFanAverages at h
  obtain ⟨stm, h2, h⟩ := exc_bind_eq_ok h
  exact emitFanPWMStage_baseOk col hnd pwm stm st' h
    (emitFanRPMStage_baseOk col hnd rpm st1 stm h2 hst1)

/-- C10: every sample emitted by any reconciliation path carries the
complete base label set, and on a key collision the base value wins,
because the base labels are merged (`dict.update`) after the per-sample
discriminator labels are set.  Formally: if every pre-existing sample
honours the base labels, every sample after a full `collect` cycle does,
for any target whose base label keys are distinct. -/
theorem c10_base_labels_override (col : Col) (st st' : St)
    (hnd : keysNodup col.labels) (h : collect col st = .ok st')
    (hst : stBaseOk col.labels st) : stBaseOk col.labels st' := by
  unfold collect at h
  obtain ⟨st1, h1, h⟩ := exc_bind_eq_ok h
  obtain ⟨st2, h2, h⟩ := exc_bind_eq_ok h
  exact getFanMetrics_baseOk col hnd st2 st' h
    (getTempMetrics_baseOk col hnd st1 st2 h2
      (getPowerMetrics_baseOk col hnd st st1 h1 hst))

/-- Witness for C10 on `colH`, whose base labels themselves contain a
`type` key: after a full cycle every emitted sample honours the base
labels, and the deprecated-path sample's `type` label is the base value
`"BASE"`, not the per-sample `"PowerOutputWatts"` discriminator. -/
theorem c10_base_labels_override_witness :
    stBaseOk colH.labels stH ∧
    lookupJ [("device_name", JVal.str "OldPSU"),
      ("device_model", JVal.str "M"), ("type", JVal.str "BASE"),
      ("host", JVal.str "h")] "type" = some (JVal.str "BASE") :=
  ⟨c10_base_labels_override colH St.init stH
      (by unfold keysNodup; decide) rfl
      (by refine ⟨?_, ?_, ?_, ?_⟩ <;> (intro s hs; simp [St.init] at hs)),
   rfl⟩
